import Mathlib

/-!
Verification development for the `ai_image_web` job-submission subsystem
(Azure Functions in `src/api/`).  The Python handlers are shallowly embedded:
JSON values become the inductive `JVal`, Python dicts become insertion-ordered
association lists, the Cosmos DB container becomes a list of `JobRecord`s
threaded through each operation, blob storage becomes a path-indexed list of
byte lists, and the wall clock / fresh UUID / remote HTTP response are passed
in as explicit parameters.  External collaborators (Cosmos, blob store,
the remote detection server, the platform auth gate) are modelled only at
their interfaces, exactly as the handlers observe them.
-/

/-- JSON-like values, the payloads moved around by the handlers. -/
inductive JVal where
  | jnull : JVal
  | jbool : Bool → JVal
  | jint : Int → JVal
  | jstr : String → JVal
  | jarr : List JVal → JVal
  | jobj : List (String × JVal) → JVal
deriving Repr

open JVal

/-- Python dict embedded as an insertion-ordered association list. -/
abbrev PDict := List (String × JVal)

/-- Dict lookup, first matching key (Python dicts have unique keys). -/
def lookupKey : PDict → String → Option JVal
  | [], _ => none
  | (k, v) :: rest, key => if k = key then some v else lookupKey rest key

/-- Python `key in d`. -/
def containsKey (d : PDict) (key : String) : Bool :=
  (lookupKey d key).isSome

/-- Python `d.get(key, dflt)`. -/
def getD (d : PDict) (key : String) (dflt : JVal) : JVal :=
  (lookupKey d key).getD dflt

/-- Python `d[key] = v`: update in place if the key exists, else append. -/
def setKey : PDict → String → JVal → PDict
  | [], key, v => [(key, v)]
  | (k, w) :: rest, key, v =>
    if k = key then (k, v) :: rest else (k, w) :: setKey rest key v

/-- Python `del d[key]` (keys are unique, removing all occurrences agrees). -/
def removeKey : PDict → String → PDict
  | [], _ => []
  | (k, w) :: rest, key =>
    if k = key then removeKey rest key else (k, w) :: removeKey rest key

/-- Python truthiness for JSON values (`if not x`). -/
def truthy : JVal → Bool
  | jnull => false
  | jbool b => b
  | jint n => n ≠ 0
  | jstr s => s ≠ ""
  | jarr xs => ¬ xs.isEmpty
  | jobj kvs => ¬ kvs.isEmpty

/-- An ASCII single quote, used when rendering Python `repr` strings. -/
def squote : String := String.singleton (Char.ofNat 39)

mutual
/-- Python `repr` of a JSON value (string escaping inside `repr` is not
modelled; no handler behaviour in scope depends on it). -/
def pyRepr : JVal → String
  | jnull => "None"
  | jbool true => "True"
  | jbool false => "False"
  | jint n => toString n
  | jstr s => squote ++ s ++ squote
  | jarr xs => "[" ++ pyReprList xs ++ "]"
  | jobj kvs => "\x7b" ++ pyReprObj kvs ++ "\x7d"

/-- Comma-joined `repr` of list elements. -/
def pyReprList : List JVal → String
  | [] => ""
  | [x] => pyRepr x
  | x :: xs => pyRepr x ++ ", " ++ pyReprList xs

/-- Comma-joined `repr` of dict items. -/
def pyReprObj : List (String × JVal) → String
  | [] => ""
  | [(k, v)] => squote ++ k ++ squote ++ ": " ++ pyRepr v
  | (k, v) :: kvs => squote ++ k ++ squote ++ ": " ++ pyRepr v ++ ", " ++ pyReprObj kvs
end

/-- Python `str(x)` as used in f-string interpolation. -/
def pyStr : JVal → String
  | jstr s => s
  | v => pyRepr v

/-- Whether the first list starts with the second. -/
def listStartsWith : List Char → List Char → Bool
  | _, [] => true
  | [], _ :: _ => false
  | c :: cs, d :: ds => c = d && listStartsWith cs ds

/-- Index of the leftmost occurrence of `sep` in the list, if any. -/
def firstOccAux (sep : List Char) : List Char → Option Nat
  | [] => if sep.isEmpty then some 0 else none
  | c :: rest =>
    if listStartsWith (c :: rest) sep then some 0
    else
      match firstOccAux sep rest with
      | some n => some (n + 1)
      | none => none

/-- Fuelled splitting at each leftmost non-overlapping occurrence of
`sep`; the fuel (one unit per split step) makes the recursion structural. -/
def pySplitGo (sep : List Char) : Nat → List Char → List (List Char)
  | 0, s => [s]
  | fuel + 1, s =>
    match firstOccAux sep s with
    | none => [s]
    | some i => s.take i :: pySplitGo sep fuel (s.drop (i + sep.length))

/-- Python `s.split(sep)` for nonempty `sep`: the pieces between the
leftmost non-overlapping occurrences of `sep`, in order. -/
def pySplit (sep s : String) : List String :=
  (pySplitGo sep.data (s.data.length + 1) s.data).map String.mk

/-- Python `sub in s` for nonempty `sub` (substring containment). -/
def pyInStr (sub s : String) : Bool :=
  (pySplit sub s).length ≠ 1

/-- Membership in the regex character class `[a-zA-Z0-9._-]` used by the
sanitization in `create-job` and `get-jobs-by-user`. -/
def allowedChar (c : Char) : Bool :=
  (Char.ofNat 97 ≤ c ∧ c ≤ Char.ofNat 122) ∨
  (Char.ofNat 65 ≤ c ∧ c ≤ Char.ofNat 90) ∨
  (Char.ofNat 48 ≤ c ∧ c ≤ Char.ofNat 57) ∨
  c = Char.ofNat 46 ∨ c = Char.ofNat 95 ∨ c = Char.ofNat 45

/-- One character of `re.sub(r'[^a-zA-Z0-9._-]', '_', s)`. -/
def sanChar (c : Char) : Char :=
  if allowedChar c then c else Char.ofNat 95

/-- The identifier sanitization `re.sub(r'[^a-zA-Z0-9._-]', '_', s)`
applied to `request_name` at creation and to `userId` in the listing query. -/
def sanitizeId (s : String) : String :=
  String.mk (s.data.map sanChar)

/-- Value of a base64 alphabet character, `none` for non-alphabet input. -/
def b64Val (c : Char) : Option Nat :=
  if Char.ofNat 65 ≤ c ∧ c ≤ Char.ofNat 90 then some (c.toNat - 65)
  else if Char.ofNat 97 ≤ c ∧ c ≤ Char.ofNat 122 then some (c.toNat - 71)
  else if Char.ofNat 48 ≤ c ∧ c ≤ Char.ofNat 57 then some (c.toNat + 4)
  else if c = Char.ofNat 43 then some 62
  else if c = Char.ofNat 47 then some 63
  else none

/-- Error text for a trailing quad of one data character. -/
def errB64OneMore (nData : Nat) : String :=
  "Invalid base64-encoded string: number of data characters (" ++ toString nData ++
    ") cannot be 1 more than a multiple of 4"

/-- Error text of the ASCII pre-encoding of a non-ASCII argument (the
position/character detail of the real message is not reproduced). -/
def errB64Ascii : String :=
  squote ++ "ascii" ++ squote ++ " codec can" ++ squote ++
    "t encode character: ordinal not in range(128)"

/-- CPython `binascii.a2b_base64` in non-strict mode: non-alphabet bytes are
skipped, a pad sequence completing a quad ends decoding, a trailing partial
quad is an error.  State: remaining input, position in the current quad,
carried bits, pad characters seen since the last data character, data
characters consumed, reversed output bytes. -/
def a2bLoop : List Char → Nat → Nat → Nat → Nat → List Nat → Except String (List Nat)
  | [], quadPos, _, _, nData, acc =>
    if quadPos = 0 then .ok acc.reverse
    else if quadPos = 1 then .error (errB64OneMore nData)
    else .error "Incorrect padding"
  | c :: rest, quadPos, leftchar, pads, nData, acc =>
    if c = Char.ofNat 61 then
      if quadPos ≥ 2 ∧ quadPos + (pads + 1) ≥ 4 then .ok acc.reverse
      else a2bLoop rest quadPos leftchar (pads + 1) nData acc
    else
      match b64Val c with
      | none => a2bLoop rest quadPos leftchar pads nData acc
      | some v =>
        match quadPos with
        | 0 => a2bLoop rest 1 v 0 (nData + 1) acc
        | 1 => a2bLoop rest 2 (v % 16) 0 (nData + 1) ((leftchar * 4 + v / 16) :: acc)
        | 2 => a2bLoop rest 3 (v % 4) 0 (nData + 1) ((leftchar * 16 + v / 4) :: acc)
        | _ => a2bLoop rest 0 0 0 (nData + 1) ((leftchar * 64 + v) :: acc)

/-- Python `base64.b64decode` applied to a `str` (the `upload-file` handler
passes a `str`): the argument is ASCII-encoded first (raising for non-ASCII
characters), then decoded leniently; `.error` carries `str(e)` of the raised
exception. -/
def pyB64decode (s : String) : Except String (List Nat) :=
  if s.data.any (fun c => c.toNat ≥ 128) then .error errB64Ascii
  else a2bLoop s.data 0 0 0 0 []

/-- A job document in the `batch_api_jobs` Cosmos DB container, with the
fields written by `create-job` (`JobStatusTable.create_job_status`). -/
structure JobRecord where
  id : String
  api_instance : String
  status : PDict
  job_submission_time : String
  last_updated : String
  call_params : PDict
deriving Repr

/-- The Cosmos DB container, as the handlers observe it: documents keyed by
`id` (which is also the partition key). -/
abbrev Store := List JobRecord

/-- Cosmos `read_item(item=job_id, partition_key=job_id)`; `none` models the
not-found exception. -/
def read_item : Store → String → Option JobRecord
  | [], _ => none
  | r :: rest, jid => if r.id = jid then some r else read_item rest jid

/-- Read with a JSON-valued key: only a string key can name a document. -/
def read_itemV (store : Store) (key : JVal) : Option JobRecord :=
  match key with
  | jstr s => read_item store s
  | _ => none

/-- Cosmos `replace_item`: swap in the new body for the document with the
same `id`. -/
def replace_item : Store → JobRecord → Store
  | [], _ => []
  | r :: rest, item =>
    if r.id = item.id then item :: replace_item rest item
    else r :: replace_item rest item

/-- Cosmos `create_item`: fails when a document with the same `id` exists. -/
def create_item (store : Store) (item : JobRecord) : Except String Store :=
  if (read_item store item.id).isSome then
    .error "Resource with specified id or name already exists"
  else
    .ok (store ++ [item])

/-- The closed status vocabulary `JobStatusTable.allowed_statuses`. -/
def allowed_statuses : List String :=
  ["created", "submitting_job", "running", "failed", "problem", "completed", "canceled"]

/-- Python `status['request_status'] not in allowed_statuses`, negated:
only a string equal to one of the seven values passes. -/
def allowedStatusVal : JVal → Bool
  | jstr s => allowed_statuses.contains s
  | _ => false

/-- The full check performed by `create_job_status`/`update_job_status`
before any write: both fields present and the status value in vocabulary. -/
def statusValidB (status : PDict) : Bool :=
  containsKey status "request_status" && containsKey status "message" &&
    allowedStatusVal (getD status "request_status" jnull)

/-- Error text raised when a status field is missing. -/
def errStatusFields : String :=
  "Status must contain " ++ squote ++ "request_status" ++ squote ++ " and " ++
    squote ++ "message" ++ squote ++ " fields"

/-- Error text raised for an out-of-vocabulary `request_status`. -/
def errInvalidStatus : String :=
  "Invalid request_status. Must be one of: " ++ String.intercalate ", " allowed_statuses

/-- Error text of the Cosmos not-found exception (opaque to the handlers,
which only embed `str(e)` into messages). -/
def errNotFound : String :=
  "Entity with the specified id does not exist in the system"

/-- Error text of `re.sub` applied to a non-string `request_name`. -/
def errReSubType : String :=
  "expected string or bytes-like object"

/-- The `request_name` sanitization step of `create_job_status`:
`re.sub` demands a string and raises `TypeError` otherwise. -/
def sanitizeRequestName (cp : PDict) : Except String PDict :=
  match lookupKey cp "request_name" with
  | some (jstr s) => .ok (setKey cp "request_name" (jstr (sanitizeId s)))
  | some _ => .error errReSubType
  | none => .ok cp

/-- The `image_path_prefix` rewrite of `create_job_status`: nest the
client-supplied prefix (stringified, as the f-string does) under the fresh
job id, or use the bare job id when the field is absent. -/
def prefixPathParams (job_id : String) (cp : PDict) : PDict :=
  match lookupKey cp "image_path_prefix" with
  | some orig =>
    setKey cp "image_path_prefix" (jstr (job_id ++ "/" ++ pyStr orig))
  | none => setKey cp "image_path_prefix" (jstr job_id)

/-- `JobStatusTable.create_job_status` from `src/api/create-job/__init__.py`:
validate the status dict, rewrite `image_path_prefix` under the job id,
drop `input_container_sas`, sanitize `request_name`, stamp `caller = "awc"`,
and `create_item` the document.  The current UTC time is the explicit
parameter `t`; `.error` models a raised exception (nothing stored). -/
def create_job_status (store : Store) (job_id : String) (status : PDict)
    (call_params : PDict) (t : String) : Except String (Store × JobRecord) :=
  if ¬ (containsKey status "request_status" ∧ containsKey status "message") then
    .error errStatusFields
  else if ¬ allowedStatusVal (getD status "request_status" jnull) then
    .error errInvalidStatus
  else
    let cp2 := removeKey (prefixPathParams job_id call_params) "input_container_sas"
    match sanitizeRequestName cp2 with
    | .error e => .error e
    | .ok cp3 =>
      let cp4 := setKey cp3 "caller" (jstr "awc")
      let item : JobRecord :=
        { id := job_id, api_instance := "web", status := status,
          job_submission_time := t, last_updated := t, call_params := cp4 }
      match create_item store item with
      | .error e => .error e
      | .ok store1 => .ok (store1, item)

/-- `JobStatusTable.update_job_status` from
`src/api/complete-upload/__init__.py`: read the document (raising if
absent), validate the new status dict, then replace the document with the
status and `last_updated` fields rewritten. -/
def update_job_status (store : Store) (key : JVal) (status : PDict)
    (t : String) : Except String (Store × JobRecord) :=
  match read_itemV store key with
  | none => .error errNotFound
  | some item =>
    if ¬ (containsKey status "request_status" ∧ containsKey status "message") then
      .error errStatusFields
    else if ¬ allowedStatusVal (getD status "request_status" jnull) then
      .error errInvalidStatus
    else
      let item2 := { item with status := status, last_updated := t }
      .ok (replace_item store item2, item2)

/-- An HTTP response as the handlers build it: a status code and a JSON body
(`func.HttpResponse(json.dumps(body), status_code=...)`). -/
structure HttpResp where
  status_code : Nat
  body : JVal
deriving Repr

/-- Shorthand for the `{"error": msg}` envelopes. -/
def errorResp (code : Nat) (msg : String) : HttpResp :=
  ⟨code, jobj [("error", jstr msg)]⟩

/-- Python `isinstance(x, int)` on a JSON value (`True`/`False` are ints). -/
def isPyInt : JVal → Bool
  | jint _ => true
  | jbool _ => true
  | _ => false

/-- Initial status dict written by `create-job`. -/
def createdStatus : PDict :=
  [("request_status", jstr "created"),
   ("message", jstr "Request received from React web. Pending upload images to Blob container")]

/-- The `main` of `src/api/create-job/__init__.py`, past the platform
authentication gate (an external concern) and with the fresh `uuid4().hex`
and current UTC time passed explicitly.  SAS-URL/AzCopy header generation is
blob-store I/O performed after the record is written and assumed to succeed;
it does not alter the document or the JSON body `{"jobId": ...}`. -/
def create_job_main (reqBody : PDict) (job_id : String) (t : String)
    (store : Store) : HttpResp × Store :=
  if ¬ (containsKey reqBody "num_images" ∧ isPyInt (getD reqBody "num_images" jnull)) then
    (errorResp 400 "num_images is required and must be an integer", store)
  else
    match create_job_status store job_id createdStatus reqBody t with
    | .error e => (errorResp 500 e, store)
    | .ok (store1, _) => (⟨200, jobj [("jobId", jstr job_id)]⟩, store1)

/-- `ensure_container_sas_url` from
`src/api/create-job-update-params/__init__.py`: drop `input_container_sas`
if present, then set `caller` to `"awc"`. -/
def ensure_container_sas_url (params : PDict) : PDict :=
  setKey (removeKey params "input_container_sas") "caller" (jstr "awc")

/-- `update_job_params` from the same file: overwrite the document's
`call_params` wholesale and replace the document (no other field changes,
in particular `last_updated` is untouched). -/
def update_job_params (store : Store) (job_item : JobRecord)
    (new_params : PDict) : Store × JobRecord :=
  let job2 := { job_item with call_params := new_params }
  (replace_item store job2, job2)

/-- The `main` of `src/api/create-job-update-params/__init__.py`, past the
authentication gate.  The route parameter and parsed JSON body are passed as
options (`none` = absent); Python falsiness rejects an empty string route
value and an empty replacement dict. -/
def update_params_main (store : Store) (jobId : Option String)
    (reqBody : Option PDict) : HttpResp × Store :=
  match jobId with
  | none => (errorResp 400 "Job ID is required", store)
  | some jid =>
    if jid = "" then (errorResp 400 "Job ID is required", store)
    else
      match reqBody with
      | none => (errorResp 400 "Request body is required", store)
      | some body =>
        if body.isEmpty then (errorResp 400 "Request body is required", store)
        else
          match read_item store jid with
          | none => (errorResp 404 ("Job not found: " ++ errNotFound), store)
          | some job_item =>
            let newParams := ensure_container_sas_url body
            let (store1, _) := update_job_params store job_item newParams
            (⟨200, jobj [("success", jbool true),
                         ("message", jstr "Job parameters updated successfully")]⟩,
             store1)

/-- Outcome of the single outbound call `requests.post(AI_SERVER_ENDPOINT,
json=call_params, timeout=30)`, as the handler distinguishes it:
an HTTP response (status code, body text, and the result of
`json.loads(text)` — `none` when the body is not JSON), a
`requests.exceptions.ConnectionError`, or any other raised exception
(e.g. a timeout). -/
inductive RemoteOutcome where
  | resp : Nat → String → Option JVal → RemoteOutcome
  | connError : String → RemoteOutcome
  | otherError : String → RemoteOutcome

/-- Body text of the mock response substituted when the external call is
disabled by configuration. -/
def mockDisabledText : String :=
  "\x7b\"success\": true, \"message\": \"Mocked response - no actual server call made\"\x7d"

/-- Parsed JSON of `mockDisabledText`. -/
def mockDisabledJson : JVal :=
  jobj [("success", jbool true),
        ("message", jstr "Mocked response - no actual server call made")]

/-- Body text of the mock response substituted on a `ConnectionError`. -/
def mockConnErrorText : String :=
  "\x7b\"success\": true, \"message\": \"Simulated successful response - network error occurred\"\x7d"

/-- Parsed JSON of `mockConnErrorText`. -/
def mockConnErrorJson : JVal :=
  jobj [("success", jbool true),
        ("message", jstr "Simulated successful response - network error occurred")]

/-- Status written before dispatching to the AI server. -/
def callingStatus : PDict :=
  [("request_status", jstr "created"),
   ("message", jstr "Calling AI server API...")]

/-- Status written after a success response from the AI server. -/
def submittedStatus : PDict :=
  [("request_status", jstr "created"),
   ("message", jstr "Request received from React web. Images were presumely uploaded.")]

/-- Status written on the generic exception path (e.g. a timeout), carrying
the note about the unreachable server. -/
def noteStatus : PDict :=
  [("request_status", jstr "created"),
   ("message", jstr "Request received from React web. Images were presumely uploaded. Note: Could not reach AI server.")]

/-- Status written when the AI server answers with a non-200 code. -/
def problemStatus (detail : String) : PDict :=
  [("request_status", jstr "problem"),
   ("message", jstr ("Error submitting to AI server: " ++ detail))]

/-- Error-detail extraction of the non-200 branch of `complete-upload`:
start from the generic `AI server returned status code N`; replace it by the
body's `error` field when `response.json()` yields a dict holding one; when
the JSON parse (or the subsequent `in`/indexing on a non-dict value) raises,
fall back to the raw body text if nonempty.  A parsed dict without an
`error` key keeps the generic message. -/
def extractErrorDetail (code : Nat) (text : String) (jsonRes : Option JVal) : JVal :=
  let dflt := jstr ("AI server returned status code " ++ toString code)
  let fallback := if text ≠ "" then jstr text else dflt
  match jsonRes with
  | none => fallback
  | some (jobj kvs) =>
    match lookupKey kvs "error" with
    | some v => v
    | none => dflt
  | some (jstr s) => if pyInStr "error" s then fallback else dflt
  | some (jarr xs) =>
    if xs.any (fun x => match x with | jstr u => u = "error" | _ => false) then fallback
    else dflt
  | some _ => fallback

/-- The generic `except Exception` handler at the end of the dispatch block
of `complete-upload`: record the note status and answer success anyway; if
even that status write raises, the outermost handler answers 500. -/
def completeUploadExceptPath (store : Store) (jobIdV : JVal) (t2 : String) :
    HttpResp × Store :=
  match update_job_status store jobIdV noteStatus t2 with
  | .ok (store2, _) =>
    (⟨200, jobj [("success", jbool true),
                 ("message", jstr "Job recorded successfully. Note: Could not connect to processing server, but your job has been registered."),
                 ("jobId", jobIdV)]⟩,
     store2)
  | .error e =>
    (⟨500, jobj [("success", jbool false),
                 ("error", jstr ("Unexpected error: " ++ e))]⟩,
     store)

/-- The response the handler proceeds with after the `requests.post`
block: the real response when the call is enabled and answered, the mock
200 response when the call is disabled or a `ConnectionError` was raised,
and `none` (control jumps to the generic `except` handler) for any other
exception. -/
def remoteResponse (enableCall : Bool) (outcome : RemoteOutcome) :
    Option (Nat × String × Option JVal) :=
  if ¬ enableCall then some (200, mockDisabledText, some mockDisabledJson)
  else
    match outcome with
    | .resp c txt js => some (c, txt, js)
    | .connError _ => some (200, mockConnErrorText, some mockConnErrorJson)
    | .otherError _ => none

/-- The tail of `complete-upload`'s dispatch block, from the
`response.status_code == 200` test on: write the confirmation or problem
status and build the HTTP answer; a raised status write falls into the
generic `except` handler. -/
def complete_upload_dispatch (store1 : Store) (jobIdV : JVal)
    (respOpt : Option (Nat × String × Option JVal)) (t2 : String) :
    HttpResp × Store :=
  match respOpt with
  | none => completeUploadExceptPath store1 jobIdV t2
  | some (code, text, jsonRes) =>
    if code = 200 then
      match update_job_status store1 jobIdV submittedStatus t2 with
      | .ok (store2, _) =>
        (⟨200, jobj [("success", jbool true),
                     ("message", jstr "Job submitted for processing"),
                     ("jobId", jobIdV)]⟩,
         store2)
      | .error _ => completeUploadExceptPath store1 jobIdV t2
    else
      let errDetail := extractErrorDetail code text jsonRes
      match update_job_status store1 jobIdV (problemStatus (pyStr errDetail)) t2 with
      | .ok (store2, _) =>
        (⟨500, jobj [("success", jbool false),
                     ("error", errDetail),
                     ("jobId", jobIdV)]⟩,
         store2)
      | .error _ => completeUploadExceptPath store1 jobIdV t2

/-- The `main` of `src/api/complete-upload/__init__.py`, past the
authentication gate.  `enableCall` is the `ENABLE_EXTERNAL_API_CALL`
configuration flag; `outcome` is the observed behaviour of the single
outbound call (consulted only when the call is enabled); `t1`/`t2` are the
UTC times of the two status writes.  The pre-flight socket connectivity
check only logs and is omitted. -/
def complete_upload_main (store : Store) (reqBody : PDict) (enableCall : Bool)
    (outcome : RemoteOutcome) (t1 t2 : String) : HttpResp × Store :=
  let jobIdV := getD reqBody "jobId" jnull
  if ¬ truthy jobIdV then (errorResp 400 "jobId is required", store)
  else
    match read_itemV store jobIdV with
    | none => (errorResp 404 ("Job not found: " ++ errNotFound), store)
    | some _job_item =>
      match update_job_status store jobIdV callingStatus t1 with
      | .error e => (errorResp 500 ("Failed to update job status: " ++ e), store)
      | .ok (store1, _) =>
        complete_upload_dispatch store1 jobIdV (remoteResponse enableCall outcome) t2

/-- Python type name of a JSON value, as embedded in `TypeError` texts. -/
def pyTypeName : JVal → String
  | jnull => "NoneType"
  | jbool _ => "bool"
  | jint _ => "int"
  | jstr _ => "str"
  | jarr _ => "list"
  | jobj _ => "dict"

/-- One pass of Python `str.title()`: uppercase each cased character that
follows an uncased one, lowercase the rest (ASCII letters are the cased
characters of the identifiers in scope). -/
def pyTitleGo : List Char → Bool → List Char
  | [], _ => []
  | c :: cs, prevCased =>
    if c.isAlpha then
      (if prevCased then c.toLower else c.toUpper) :: pyTitleGo cs true
    else c :: pyTitleGo cs false

/-- Python `str.title()`. -/
def pyTitle (s : String) : String :=
  String.mk (pyTitleGo s.data false)

/-- The URL-scanning loop of the message reshaping in `get-jobs-by-user`:
first dict item whose value is a string containing `http://` or `https://`. -/
def scanUrl : List (String × JVal) → Option (String × String)
  | [] => none
  | (k, v) :: rest =>
    match v with
    | jstr s =>
      if pyInStr "http://" s ∨ pyInStr "https://" s then some (k, s)
      else scanUrl rest
    | _ => scanUrl rest

/-- The message reshaping of `src/api/get-jobs-by-user/__init__.py`
(lines 124-171), applied to the stored `status.message` of each listed job:
known result shapes become `{text, url}` link objects, an unrecognized dict
becomes a link found by URL-scanning or the plain string
`Results available`, and any non-string non-dict value is stringified. -/
def reshapeMessage : JVal → JVal
  | jobj kvs =>
    match lookupKey kvs "detections" with
    | some (jstr s) => jobj [("text", jstr "View Detections"), ("url", jstr s)]
    | _ =>
      if containsKey kvs "output_file_urls" then
        match getD kvs "output_file_urls" jnull with
        | jobj okvs =>
          if containsKey okvs "detections" then
            jobj [("text", jstr "View Detections"), ("url", getD okvs "detections" jnull)]
          else
            jobj [("text", jstr "View Results"), ("url", jstr "#")]
        | jstr s => jobj [("text", jstr "View Output Files"), ("url", jstr s)]
        | _ => jobj [("text", jstr "View Results"), ("url", jstr "#")]
      else
        match scanUrl kvs with
        | some (k, u) =>
          jobj [("text", jstr ("View " ++ pyTitle (String.replace k "_" " "))),
                ("url", jstr u)]
        | none => jstr "Results available"
  | jstr s => jstr s
  | v => jstr (pyStr v)

/-- The row filter of the `get-jobs-by-user` query
(`WHERE c.call_params.request_name = @userId`, with the sanitized user id
as the parameter): Cosmos equality of the stored field with a string. -/
def jobsQueryFilter (sanitizedUserId : String) (r : JobRecord) : Bool :=
  match lookupKey r.call_params "request_name" with
  | some (jstr s) => s = sanitizedUserId
  | _ => false

/-- The record set matched by `get-jobs-by-user` for a raw `userId`: the
handler sanitizes the id and queries on equality.  The query also projects
columns and orders by submission time descending (external store behaviour
that does not change which records match). -/
def jobsForUser (store : Store) (user_id : String) : List JobRecord :=
  store.filter (fun r => jobsQueryFilter (sanitizeId user_id) r)

/-- Blob storage as the `upload-file` handler uses it: blob path to bytes. -/
abbrev BlobStore := List (String × List Nat)

/-- `upload_blob(..., overwrite=True)`. -/
def upsertBlob : BlobStore → String → List Nat → BlobStore
  | [], p, content => [(p, content)]
  | (q, old) :: rest, p, content =>
    if q = p then (q, content) :: rest
    else (q, old) :: upsertBlob rest p content

/-- Exception text of `base64.b64decode` on a non-string list/dict. -/
def errB64ArgType (t : String) : String :=
  "argument should be a bytes-like object or ASCII string, not " ++
    squote ++ t ++ squote

/-- Exception text of `sub in x` for a non-container `x`. -/
def errNotIterable (t : String) : String :=
  "argument of type " ++ squote ++ t ++ squote ++ " is not iterable"

/-- Exception text of `.split` on a non-string. -/
def errNoSplit (t : String) : String :=
  squote ++ t ++ squote ++ " object has no attribute " ++ squote ++ "split" ++ squote

/-- The base64 payload `upload-file` actually decodes: when the content
contains `;base64,`, the element at index 1 of the Python split — the text
strictly between the first and second occurrences (or everything after the
first when it is unique) — else the whole content. -/
def uploadSegment (content : String) : String :=
  if pyInStr ";base64," content then (pySplit ";base64," content).getD 1 ""
  else content

/-- `req_body.get('filePath', file_name)`: the `filePath` value when the
key is present (even if null), else the `fileName` value. -/
def uploadFilePathVal (reqBody : PDict) : JVal :=
  match lookupKey reqBody "filePath" with
  | some v => v
  | none => getD reqBody "fileName" jnull

/-- The blob path `f"{job_id}/{file_path}"` of `upload-file`. -/
def uploadBlobPath (reqBody : PDict) : String :=
  pyStr (getD reqBody "jobId" jnull) ++ "/" ++ pyStr (uploadFilePathVal reqBody)

/-- The `main` of `src/api/upload-file/__init__.py`, past the authentication
gate.  The blob-store connection is assumed to succeed; the `contentType`
field only feeds blob metadata and is not modelled.  Every failure inside
the decode `try` block (including the `in`/`split`/`b64decode` type errors
on non-string content) answers 400 with the exception text. -/
def upload_file_main (reqBody : PDict) (blobs : BlobStore) : HttpResp × BlobStore :=
  let job_id := getD reqBody "jobId" jnull
  let file_name := getD reqBody "fileName" jnull
  let file_content_b64 := getD reqBody "fileContent" jnull
  if ¬ (truthy job_id ∧ truthy file_name ∧ truthy file_content_b64) then
    (errorResp 400 "Missing required fields: jobId, fileName, fileContent", blobs)
  else
    let decoded : Except String (List Nat) :=
      match file_content_b64 with
      | jstr content => pyB64decode (uploadSegment content)
      | jarr xs =>
        if xs.any (fun x => match x with | jstr u => u = ";base64," | _ => false) then
          .error (errNoSplit "list")
        else .error (errB64ArgType "list")
      | jobj kvs =>
        if containsKey kvs ";base64," then .error (errNoSplit "dict")
        else .error (errB64ArgType "dict")
      | v => .error (errNotIterable (pyTypeName v))
    match decoded with
    | .error e => (errorResp 400 ("Invalid base64 content: " ++ e), blobs)
    | .ok bytes =>
      let blob_path := uploadBlobPath reqBody
      (⟨200, jobj [("success", jbool true),
                   ("message", jstr "File uploaded successfully"),
                   ("blobPath", jstr blob_path)]⟩,
       upsertBlob blobs blob_path bytes)

/-! Helper lemmas about the dict and store primitives. -/

theorem lookupKey_setKey_self (d : PDict) (k : String) (v : JVal) :
    lookupKey (setKey d k v) k = some v := by
  induction d with
  | nil => simp [setKey, lookupKey]
  | cons kv rest ih =>
    obtain ⟨k0, v0⟩ := kv
    by_cases h : k0 = k
    · simp [setKey, lookupKey, h]
    · simp [setKey, lookupKey, h, ih]

theorem lookupKey_setKey_ne (d : PDict) (k k' : String) (v : JVal)
    (h : k ≠ k') : lookupKey (setKey d k v) k' = lookupKey d k' := by
  induction d with
  | nil => simp [setKey, lookupKey, h]
  | cons kv rest ih =>
    obtain ⟨k0, v0⟩ := kv
    by_cases h0 : k0 = k
    · subst h0
      simp [setKey, lookupKey, h]
    · simp [setKey, lookupKey, h0, ih]

theorem lookupKey_removeKey_self (d : PDict) (k : String) :
    lookupKey (removeKey d k) k = none := by
  induction d with
  | nil => simp [removeKey, lookupKey]
  | cons kv rest ih =>
    obtain ⟨k0, v0⟩ := kv
    by_cases h0 : k0 = k
    · simp [removeKey, h0, ih]
    · simp [removeKey, lookupKey, h0, ih]

theorem lookupKey_removeKey_ne (d : PDict) (k k' : String) (h : k ≠ k') :
    lookupKey (removeKey d k) k' = lookupKey d k' := by
  induction d with
  | nil => simp [removeKey]
  | cons kv rest ih =>
    obtain ⟨k0, v0⟩ := kv
    by_cases h0 : k0 = k
    · subst h0
      simp [removeKey, lookupKey, h, ih]
    · simp [removeKey, lookupKey, h0, ih]

theorem read_item_id (store : Store) (jid : String) (r : JobRecord)
    (h : read_item store jid = some r) : r.id = jid := by
  induction store with
  | nil => simp [read_item] at h
  | cons r0 rest ih =>
    by_cases h0 : r0.id = jid
    · simp [read_item, h0] at h
      subst h
      exact h0
    · simp [read_item, h0] at h
      exact ih h

theorem read_item_replace (store : Store) (jid : String) (r item : JobRecord)
    (h : read_item store jid = some r) (hid : item.id = jid) :
    read_item (replace_item store item) jid = some item := by
  induction store with
  | nil => simp [read_item] at h
  | cons r0 rest ih =>
    by_cases h0 : r0.id = jid
    · have : r0.id = item.id := by rw [h0, hid]
      simp [replace_item, this, read_item, hid]
    · have hne : ¬ r0.id = item.id := by rw [hid]; exact h0
      simp [read_item, h0] at h
      simp [replace_item, hne, read_item, h0, ih h]

theorem mem_replace_item (store : Store) (item r : JobRecord)
    (h : r ∈ replace_item store item) : r ∈ store ∨ r = item := by
  induction store with
  | nil => simp [replace_item] at h
  | cons r0 rest ih =>
    by_cases h0 : r0.id = item.id
    · simp [replace_item, h0] at h
      rcases h with h | h
      · right; exact h
      · rcases ih h with h1 | h1
        · left; exact List.mem_cons_of_mem _ h1
        · right; exact h1
    · simp [replace_item, h0] at h
      rcases h with h | h
      · left; simp [h]
      · rcases ih h with h1 | h1
        · left; exact List.mem_cons_of_mem _ h1
        · right; exact h1

theorem read_item_append_none (store : Store) (jid : String) (item : JobRecord)
    (h : read_item store jid = none) :
    read_item (store ++ [item]) jid =
      if item.id = jid then some item else none := by
  induction store with
  | nil => simp [read_item]
  | cons r0 rest ih =>
    by_cases h0 : r0.id = jid
    · simp [read_item, h0] at h
    · simp [read_item, h0] at h ⊢
      exact ih h

/-- A record with its status and `last_updated` rewritten, as
`update_job_status` stores it. -/
def withStatus (rec : JobRecord) (st : PDict) (t : String) : JobRecord :=
  { rec with status := st, last_updated := t }

theorem withStatus_withStatus (rec : JobRecord) (a b : PDict) (t1 t2 : String) :
    withStatus (withStatus rec a t1) b t2 = withStatus rec b t2 := rfl

theorem update_job_status_ok (store : Store) (jid : String) (rec : JobRecord)
    (status : PDict) (t : String)
    (h : read_item store jid = some rec) (hv : statusValidB status = true) :
    update_job_status store (jstr jid) status t =
      .ok (replace_item store (withStatus rec status t), withStatus rec status t) := by
  unfold statusValidB at hv
  rw [Bool.and_eq_true, Bool.and_eq_true] at hv
  obtain ⟨⟨h1, h2⟩, h3⟩ := hv
  simp [update_job_status, read_itemV, h, h1, h2, h3, withStatus]

theorem statusValidB_problemStatus (s : String) :
    statusValidB (problemStatus s) = true := by
  simp [statusValidB, problemStatus, containsKey, lookupKey, getD,
    allowedStatusVal, allowed_statuses]

theorem read_item_withStatus (store : Store) (jid : String) (rec : JobRecord)
    (st : PDict) (t : String) (h : read_item store jid = some rec) :
    read_item (replace_item store (withStatus rec st t)) jid =
      some (withStatus rec st t) :=
  read_item_replace store jid rec _ h (read_item_id store jid rec h)

theorem complete_upload_main_run (store : Store) (reqBody : PDict) (jid : String)
    (rec : JobRecord) (enableCall : Bool) (outcome : RemoteOutcome) (t1 t2 : String)
    (hj : lookupKey reqBody "jobId" = some (jstr jid)) (hne : jid ≠ "")
    (h : read_item store jid = some rec) :
    complete_upload_main store reqBody enableCall outcome t1 t2 =
      complete_upload_dispatch (replace_item store (withStatus rec callingStatus t1))
        (jstr jid) (remoteResponse enableCall outcome) t2 := by
  have hcall : statusValidB callingStatus = true := by decide
  have h1 := update_job_status_ok store jid rec callingStatus t1 h hcall
  simp [complete_upload_main, getD, hj, truthy, hne, read_itemV, h, h1]

theorem dispatch_resp_eq (store1 : Store) (jid : String) (rec1 : JobRecord)
    (code : Nat) (text : String) (jsonRes : Option JVal) (t2 : String)
    (h : read_item store1 jid = some rec1) :
    complete_upload_dispatch store1 (jstr jid) (some (code, text, jsonRes)) t2 =
      if code = 200 then
        (⟨200, jobj [("success", jbool true),
                     ("message", jstr "Job submitted for processing"),
                     ("jobId", jstr jid)]⟩,
         replace_item store1 (withStatus rec1 submittedStatus t2))
      else
        (⟨500, jobj [("success", jbool false),
                     ("error", extractErrorDetail code text jsonRes),
                     ("jobId", jstr jid)]⟩,
         replace_item store1
           (withStatus rec1
             (problemStatus (pyStr (extractErrorDetail code text jsonRes))) t2)) := by
  have h2 := update_job_status_ok store1 jid rec1 submittedStatus t2 h (by decide)
  have h3 := update_job_status_ok store1 jid rec1
    (problemStatus (pyStr (extractErrorDetail code text jsonRes))) t2 h
    (statusValidB_problemStatus _)
  by_cases hc : code = 200 <;> simp [complete_upload_dispatch, hc, h2, h3]

theorem dispatch_none_eq (store1 : Store) (jid : String) (rec1 : JobRecord)
    (t2 : String) (h : read_item store1 jid = some rec1) :
    complete_upload_dispatch store1 (jstr jid) none t2 =
      (⟨200, jobj [("success", jbool true),
                   ("message", jstr "Job recorded successfully. Note: Could not connect to processing server, but your job has been registered."),
                   ("jobId", jstr jid)]⟩,
       replace_item store1 (withStatus rec1 noteStatus t2)) := by
  have h2 := update_job_status_ok store1 jid rec1 noteStatus t2 h (by decide)
  simp [complete_upload_dispatch, completeUploadExceptPath, h2]

/-- Field of a JSON-object HTTP body. -/
def bodyField (r : HttpResp) (k : String) : Option JVal :=
  match r.body with
  | jobj kvs => lookupKey kvs k
  | _ => none

theorem sanChar_idem (c : Char) : sanChar (sanChar c) = sanChar c := by
  by_cases h : allowedChar c = true
  · simp [sanChar, h]
  · have h95 : allowedChar (Char.ofNat 95) = true := by decide
    simp [sanChar, h, h95]

theorem create_job_status_ok_shape (store : Store) (job_id : String)
    (status cp : PDict) (t : String) (store1 : Store) (rec : JobRecord)
    (hok : create_job_status store job_id status cp t = .ok (store1, rec)) :
    statusValidB status = true ∧
    read_item store job_id = none ∧
    ∃ cp3,
      sanitizeRequestName (removeKey (prefixPathParams job_id cp) "input_container_sas") =
        .ok cp3 ∧
      rec = { id := job_id, api_instance := "web", status := status,
              job_submission_time := t, last_updated := t,
              call_params := setKey cp3 "caller" (jstr "awc") } ∧
      store1 = store ++ [rec] := by
  unfold create_job_status at hok
  split at hok
  · exact absurd hok (by simp)
  · split at hok
    · exact absurd hok (by simp)
    · rename_i hcs hall
      rw [not_not] at hcs
      push_neg at hall
      obtain ⟨h1, h2⟩ := hcs
      have hv : statusValidB status = true := by
        simp [statusValidB, h1, h2, hall]
      refine ⟨hv, ?_⟩
      dsimp only at hok
      split at hok
      · exact absurd hok (by simp)
      · rename_i cp3 hsan
        unfold create_item at hok
        simp only at hok
        by_cases hdup : (read_item store job_id).isSome = true
        · rw [if_pos hdup] at hok
          exact absurd hok (by simp)
        · rw [if_neg hdup] at hok
          simp only [Except.ok.injEq, Prod.mk.injEq] at hok
          obtain ⟨hstore, hrec⟩ := hok
          refine ⟨Option.not_isSome_iff_eq_none.mp hdup, cp3, hsan, hrec.symm, ?_⟩
          rw [← hstore, hrec]

theorem create_job_status_invalid (store : Store) (job_id : String)
    (status cp : PDict) (t : String) (h : statusValidB status = false) :
    (create_job_status store job_id status cp t).isOk = false := by
  unfold create_job_status
  split
  · rfl
  · split
    · rfl
    · rename_i hcs hall
      rw [not_not] at hcs
      push_neg at hall
      have hv : statusValidB status = true := by
        simp [statusValidB, hcs.1, hcs.2, hall]
      rw [hv] at h
      exact absurd h (by simp)

theorem update_job_status_invalid (store : Store) (key : JVal) (status : PDict)
    (t : String) (h : statusValidB status = false) :
    (update_job_status store key status t).isOk = false := by
  unfold update_job_status
  split
  · rfl
  · split
    · rfl
    · split
      · rfl
      · rename_i hcs hall
        rw [not_not] at hcs
        push_neg at hall
        have hv : statusValidB status = true := by
          simp [statusValidB, hcs.1, hcs.2, hall]
        rw [hv] at h
        exact absurd h (by simp)

theorem update_job_status_ok_shape (store : Store) (key : JVal)
    (status : PDict) (t : String) (store1 : Store) (rec : JobRecord)
    (hok : update_job_status store key status t = .ok (store1, rec)) :
    statusValidB status = true ∧ rec.status = status ∧
      store1 = replace_item store rec := by
  unfold update_job_status at hok
  split at hok
  · exact absurd hok (by simp)
  · rename_i item hread
    split at hok
    · exact absurd hok (by simp)
    · split at hok
      · exact absurd hok (by simp)
      · rename_i hcs hall
        rw [not_not] at hcs
        push_neg at hall
        dsimp only at hok
        simp only [Except.ok.injEq, Prod.mk.injEq] at hok
        obtain ⟨h1, h2⟩ := hok
        refine ⟨by simp [statusValidB, hcs.1, hcs.2, hall], ?_, ?_⟩
        · rw [← h2]
        · rw [← h1, h2]

theorem mem_update_store (store : Store) (key : JVal) (status : PDict)
    (t : String) (store1 : Store) (rec : JobRecord) (r : JobRecord)
    (hok : update_job_status store key status t = .ok (store1, rec))
    (hr : r ∈ store1) : r ∈ store ∨ r.status = status := by
  obtain ⟨_, hst, hrepl⟩ := update_job_status_ok_shape store key status t store1 rec hok
  rw [hrepl] at hr
  rcases mem_replace_item store rec r hr with h | h
  · left; exact h
  · right; rw [h, hst]

theorem mem_exceptPath_store (store : Store) (key : JVal) (t : String)
    (r : JobRecord)
    (hr : r ∈ (completeUploadExceptPath store key t).2) :
    r ∈ store ∨ r.status = noteStatus := by
  unfold completeUploadExceptPath at hr
  split at hr
  · rename_i store2 rec hok
    exact mem_update_store store key noteStatus t store2 rec r hok hr
  · left; exact hr

theorem mem_dispatch_store (store1 : Store) (key : JVal)
    (respOpt : Option (Nat × String × Option JVal)) (t2 : String)
    (r : JobRecord)
    (hr : r ∈ (complete_upload_dispatch store1 key respOpt t2).2) :
    r ∈ store1 ∨ r.status = submittedStatus ∨ r.status = noteStatus ∨
      ∃ s, r.status = problemStatus s := by
  unfold complete_upload_dispatch at hr
  split at hr
  · rcases mem_exceptPath_store store1 key t2 r hr with h | h
    · left; exact h
    · right; right; left; exact h
  · rename_i code text jsonRes
    split at hr
    · split at hr
      · rename_i store2 rec hok
        rcases mem_update_store store1 key submittedStatus t2 store2 rec r hok hr with h | h
        · left; exact h
        · right; left; exact h
      · rcases mem_exceptPath_store store1 key t2 r hr with h | h
        · left; exact h
        · right; right; left; exact h
    · dsimp only at hr
      split at hr
      · rename_i store2 rec hok
        rcases mem_update_store store1 key _ t2 store2 rec r hok hr with h | h
        · left; exact h
        · right; right; right
          exact ⟨pyStr (extractErrorDetail code text jsonRes), h⟩
      · rcases mem_exceptPath_store store1 key t2 r hr with h | h
        · left; exact h
        · right; right; left; exact h

theorem statusValidB_iff (status : PDict) :
    statusValidB status = true ↔
      containsKey status "request_status" = true ∧
      containsKey status "message" = true ∧
      ∃ s, lookupKey status "request_status" = some (jstr s) ∧ s ∈ allowed_statuses := by
  unfold statusValidB
  rw [Bool.and_eq_true, Bool.and_eq_true]
  constructor
  · rintro ⟨⟨h1, h2⟩, h3⟩
    refine ⟨h1, h2, ?_⟩
    unfold containsKey at h1
    cases hl : lookupKey status "request_status" with
    | none => rw [hl] at h1; exact absurd h1 (by simp)
    | some v =>
      rw [show getD status "request_status" jnull = v by simp [getD, hl]] at h3
      cases v with
      | jstr s =>
        exact ⟨s, rfl, by simpa [allowedStatusVal] using h3⟩
      | jnull => exact absurd h3 (by simp [allowedStatusVal])
      | jbool b => exact absurd h3 (by simp [allowedStatusVal])
      | jint n => exact absurd h3 (by simp [allowedStatusVal])
      | jarr xs => exact absurd h3 (by simp [allowedStatusVal])
      | jobj kvs => exact absurd h3 (by simp [allowedStatusVal])
  · rintro ⟨h1, h2, s, hl, hmem⟩
    refine ⟨⟨h1, h2⟩, ?_⟩
    rw [show getD status "request_status" jnull = jstr s by simp [getD, hl]]
    simpa [allowedStatusVal] using hmem

/-- C3: a status write (creation or update) whose status dict lacks
`request_status` or `message`, or carries a `request_status` outside the
seven-value vocabulary, is rejected (the `ValueError` is modelled by the
`.error` result, under which nothing is stored), and any record a
successful write puts into the store either was already there or carries
the validated status, whose `request_status` is one of the seven values. -/
theorem c3_status_vocabulary_enforced (store : Store) (job_id : String)
    (key : JVal) (status cp : PDict) (t : String) :
    (statusValidB status = false →
      (create_job_status store job_id status cp t).isOk = false ∧
      (update_job_status store key status t).isOk = false) ∧
    (∀ store1 rec r, create_job_status store job_id status cp t = .ok (store1, rec) →
      r ∈ store1 → r ∈ store ∨ (r.status = status ∧ statusValidB status = true)) ∧
    (∀ store1 rec r, update_job_status store key status t = .ok (store1, rec) →
      r ∈ store1 → r ∈ store ∨ (r.status = status ∧ statusValidB status = true)) ∧
    (statusValidB status = true ↔
      containsKey status "request_status" = true ∧
      containsKey status "message" = true ∧
      ∃ s, lookupKey status "request_status" = some (jstr s) ∧ s ∈ allowed_statuses) := by
  refine ⟨?_, ?_, ?_, statusValidB_iff status⟩
  · intro h
    exact ⟨create_job_status_invalid store job_id status cp t h,
           update_job_status_invalid store key status t h⟩
  · intro store1 rec r hok hr
    obtain ⟨hv, -, cp3, hsan, hrec, hstore⟩ :=
      create_job_status_ok_shape store job_id status cp t store1 rec hok
    rw [hstore] at hr
    rcases List.mem_append.mp hr with h | h
    · left; exact h
    · right
      have : r = rec := by simpa using h
      subst this
      exact ⟨by rw [hrec], hv⟩
  · intro store1 rec r hok hr
    obtain ⟨hv, hst, hrepl⟩ := update_job_status_ok_shape store key status t store1 rec hok
    rw [hrepl] at hr
    rcases mem_replace_item store rec r hr with h | h
    · left; exact h
    · right; rw [h, hst]; exact ⟨rfl, hv⟩

/-- A closed invalid status dict used to exercise the rejection path. -/
def bogusStatus : PDict :=
  [("request_status", jstr "bogus"), ("message", jstr "m")]

/-- Witness for C3: the out-of-vocabulary status `bogus` is rejected by
both write operations on a concrete store. -/
theorem c3_status_vocabulary_enforced_witness :
    (create_job_status [] "job1" bogusStatus [] "t").isOk = false ∧
    (update_job_status [] (jstr "job1") bogusStatus "t").isOk = false :=
  (c3_status_vocabulary_enforced [] "job1" (jstr "job1") bogusStatus [] "t").1
    (by decide)

/-- The status values this subsystem itself writes, per the split-ownership
design (the remote worker owns `running`/`completed`/`failed`). -/
def subsystemStatuses : List String :=
  ["created", "submitting_job", "problem", "canceled"]

/-- Whether a status dict carries a subsystem-owned `request_status`. -/
def ownedStatusB (st : PDict) : Bool :=
  match lookupKey st "request_status" with
  | some (jstr s) => subsystemStatuses.contains s
  | _ => false

theorem ownedStatusB_problemStatus (s : String) :
    ownedStatusB (problemStatus s) = true := by
  simp [ownedStatusB, problemStatus, lookupKey, subsystemStatuses]
/-- The status dicts the dispatch tail of `complete-upload` passes to
`update_job_status`, in order, branch for branch: the confirmation or
problem write of the 200/non-200 arms, followed by the note write of the
generic `except` handler when the first write raises; the generic handler
alone on the no-response path.  A status is recorded when its write is
attempted, whether or not it then succeeds. -/
def dispatchWrites (store1 : Store) (jobIdV : JVal)
    (respOpt : Option (Nat × String × Option JVal)) (t2 : String) : List PDict :=
  match respOpt with
  | none => [noteStatus]
  | some (code, text, jsonRes) =>
    if code = 200 then
      match update_job_status store1 jobIdV submittedStatus t2 with
      | .ok _ => [submittedStatus]
      | .error _ => [submittedStatus, noteStatus]
    else
      let errDetail := extractErrorDetail code text jsonRes
      match update_job_status store1 jobIdV (problemStatus (pyStr errDetail)) t2 with
      | .ok _ => [problemStatus (pyStr errDetail)]
      | .error _ => [problemStatus (pyStr errDetail), noteStatus]

/-- Every status dict `complete-upload` passes to `update_job_status`
during a run, in order — including the intermediate
`Calling AI server API...` write, which is attempted on every path that
finds the job, before the dispatch outcome is known. -/
def complete_upload_writes (store : Store) (reqBody : PDict)
    (enableCall : Bool) (outcome : RemoteOutcome) (t1 t2 : String) :
    List PDict :=
  let jobIdV := getD reqBody "jobId" jnull
  if ¬ truthy jobIdV then []
  else
    match read_itemV store jobIdV with
    | none => []
    | some _ =>
      match update_job_status store jobIdV callingStatus t1 with
      | .error _ => [callingStatus]
      | .ok (store1, _) =>
        callingStatus ::
          dispatchWrites store1 jobIdV (remoteResponse enableCall outcome) t2

/-- Every status dict `create-job` passes to `create_job_status`: the
single `created` write, attempted whenever `num_images` validates. -/
def create_job_writes (reqBody : PDict) : List PDict :=
  if ¬ (containsKey reqBody "num_images" ∧ isPyInt (getD reqBody "num_images" jnull)) then
    []
  else [createdStatus]

theorem mem_dispatchWrites_owned (store1 : Store) (key : JVal)
    (respOpt : Option (Nat × String × Option JVal)) (t2 : String) (st : PDict)
    (h : st ∈ dispatchWrites store1 key respOpt t2) :
    ownedStatusB st = true := by
  unfold dispatchWrites at h
  split at h
  · simp at h; rw [h]; decide
  · split at h
    · split at h
      · simp at h; rw [h]; decide
      · simp at h
        rcases h with h | h
        · rw [h]; decide
        · rw [h]; decide
    · dsimp only at h
      split at h
      · simp at h; rw [h]; exact ownedStatusB_problemStatus _
      · simp at h
        rcases h with h | h
        · rw [h]; exact ownedStatusB_problemStatus _
        · rw [h]; decide

theorem mem_dispatch_trace (store1 : Store) (key : JVal)
    (respOpt : Option (Nat × String × Option JVal)) (t2 : String)
    (r : JobRecord)
    (hr : r ∈ (complete_upload_dispatch store1 key respOpt t2).2) :
    r ∈ store1 ∨ r.status ∈ dispatchWrites store1 key respOpt t2 := by
  unfold complete_upload_dispatch at hr
  unfold dispatchWrites
  split at hr
  · rcases mem_exceptPath_store store1 key t2 r hr with h | h
    · left; exact h
    · right; simp [h]
  · rename_i code text jsonRes
    split at hr
    · rename_i hc
      rw [if_pos hc]
      split at hr
      · rename_i store2 rec heq
        rw [heq]
        rcases mem_update_store store1 key submittedStatus t2 store2 rec r heq hr with h | h
        · left; exact h
        · right; simp [h]
      · rename_i heq
        rw [heq]
        rcases mem_exceptPath_store store1 key t2 r hr with h | h
        · left; exact h
        · right; simp [h]
    · rename_i hc
      rw [if_neg hc]
      dsimp only at hr ⊢
      split at hr
      · rename_i store2 rec heq
        rw [heq]
        rcases mem_update_store store1 key _ t2 store2 rec r heq hr with h | h
        · left; exact h
        · right; simp [h]
      · rename_i heq
        rw [heq]
        rcases mem_exceptPath_store store1 key t2 r hr with h | h
        · left; exact h
        · right; simp [h]

/-- C4: neither `create-job` nor `complete-upload` ever writes a status
with `request_status` outside the subsystem-owned subset
created/submitting_job/problem/canceled.  `complete_upload_writes` and
`create_job_writes` enumerate, branch for branch, every status dict the
handlers pass to the write primitives — the intermediate
`Calling AI server API...` write, the success-confirmation write, the
dispatch-failure write and the network-failure note write included —
so the first two conjuncts state that every attempted write, transient or
surviving, is owned (`running`, `completed` and `failed` are never
written); the last two tie the traces to the handlers: every record in a
handler's final store was already present or carries a status from its
trace. -/
theorem c4_subsystem_status_ownership :
    (∀ store reqBody enableCall outcome t1 t2 st,
      st ∈ complete_upload_writes store reqBody enableCall outcome t1 t2 →
      ownedStatusB st = true) ∧
    (∀ reqBody st, st ∈ create_job_writes reqBody → ownedStatusB st = true) ∧
    (∀ store reqBody enableCall outcome t1 t2 r,
      r ∈ (complete_upload_main store reqBody enableCall outcome t1 t2).2 →
      r ∈ store ∨
        r.status ∈ complete_upload_writes store reqBody enableCall outcome t1 t2) ∧
    (∀ reqBody job_id t store r,
      r ∈ (create_job_main reqBody job_id t store).2 →
      r ∈ store ∨ r.status ∈ create_job_writes reqBody) := by
  refine ⟨?_, ?_, ?_, ?_⟩
  · intro store reqBody enableCall outcome t1 t2 st h
    unfold complete_upload_writes at h
    dsimp only at h
    split at h
    · simp at h
    · split at h
      · simp at h
      · split at h
        · simp at h; rw [h]; decide
        · simp at h
          rcases h with h | h
          · rw [h]; decide
          · exact mem_dispatchWrites_owned _ _ _ _ st h
  · intro reqBody st h
    unfold create_job_writes at h
    split at h
    · simp at h
    · simp at h; rw [h]; decide
  · intro store reqBody enableCall outcome t1 t2 r hr
    unfold complete_upload_main at hr
    unfold complete_upload_writes
    dsimp only at hr ⊢
    split at hr
    · left; exact hr
    · rename_i hcond
      rw [if_neg hcond]
      split at hr
      · left; exact hr
      · split at hr
        · left; exact hr
        · rename_i store1 rec1 hok
          rcases mem_dispatch_trace store1 _ (remoteResponse enableCall outcome) t2 r hr
            with h | h
          · rcases mem_update_store store _ callingStatus t1 store1 rec1 r hok h with h1 | h1
            · left; exact h1
            · right; simp [h1]
          · right
            exact List.mem_cons_of_mem _ h
  · intro reqBody job_id t store r hr
    unfold create_job_main at hr
    unfold create_job_writes
    split at hr
    · left; exact hr
    · rename_i hcond
      rw [if_neg hcond]
      split at hr
      · left; exact hr
      · rename_i store1 rec hok
        obtain ⟨-, -, cp3, -, hrec, hstore⟩ :=
          create_job_status_ok_shape store job_id createdStatus reqBody t store1 rec hok
        rw [hstore] at hr
        rcases List.mem_append.mp hr with h | h
        · left; exact h
        · right
          have : r = rec := by simpa using h
          subst this
          have hstatus : r.status = createdStatus := by rw [hrec]
          simp [hstatus]

/-- A stored job used to exercise the C4 write trace concretely. -/
def c4Rec : JobRecord :=
  { id := "job1", api_instance := "web", status := createdStatus,
    job_submission_time := "t0", last_updated := "t0",
    call_params := [("caller", jstr "awc")] }

/-- Witness for C4: on a concrete run whose dispatch raises a
non-ConnectionError, the intermediate `Calling AI server API...` write and
the note write are both in the trace and owned, and so is the single
`created` write of a concrete job creation. -/
theorem c4_subsystem_status_ownership_witness :
    ownedStatusB callingStatus = true ∧
    ownedStatusB noteStatus = true ∧
    ownedStatusB createdStatus = true :=
  ⟨c4_subsystem_status_ownership.1 [c4Rec] [("jobId", jstr "job1")] true
      (.otherError "timeout") "t1" "t2" callingStatus
      (show callingStatus ∈ [callingStatus, noteStatus] from List.Mem.head _),
   c4_subsystem_status_ownership.1 [c4Rec] [("jobId", jstr "job1")] true
      (.otherError "timeout") "t1" "t2" noteStatus
      (show noteStatus ∈ [callingStatus, noteStatus] from
        List.mem_cons_of_mem _ (List.Mem.head _)),
   c4_subsystem_status_ownership.2.1 [("num_images", jint 1)] createdStatus
      (show createdStatus ∈ [createdStatus] from List.Mem.head _)⟩

theorem sanitizeId_idem (s : String) : sanitizeId (sanitizeId s) = sanitizeId s := by
  show String.mk ((s.data.map sanChar).map sanChar) = String.mk (s.data.map sanChar)
  rw [List.map_map]
  congr 1
  apply List.map_congr_left
  intro c _
  exact sanChar_idem c

theorem lookupKey_prefixPathParams_ne (job_id : String) (cp : PDict) (k : String)
    (h : k ≠ "image_path_prefix") :
    lookupKey (prefixPathParams job_id cp) k = lookupKey cp k := by
  unfold prefixPathParams
  split <;> exact lookupKey_setKey_ne _ _ _ _ (Ne.symm h)

theorem sanitizeRequestName_lookup_ne (cp cp3 : PDict) (k : String)
    (h : sanitizeRequestName cp = .ok cp3) (hk : k ≠ "request_name") :
    lookupKey cp3 k = lookupKey cp k := by
  unfold sanitizeRequestName at h
  split at h
  · simp only [Except.ok.injEq] at h
    rw [← h]
    exact lookupKey_setKey_ne _ _ _ _ (Ne.symm hk)
  · exact absurd h (by simp)
  · simp only [Except.ok.injEq] at h
    rw [← h]

theorem create_call_params_request_name (store : Store) (job_id : String)
    (status cp : PDict) (t : String) (store1 : Store) (rec : JobRecord)
    (rn : String)
    (hrn : lookupKey cp "request_name" = some (jstr rn))
    (hok : create_job_status store job_id status cp t = .ok (store1, rec)) :
    lookupKey rec.call_params "request_name" = some (jstr (sanitizeId rn)) := by
  obtain ⟨-, -, cp3, hsan, hrec, -⟩ :=
    create_job_status_ok_shape store job_id status cp t store1 rec hok
  have h2 : lookupKey (removeKey (prefixPathParams job_id cp) "input_container_sas")
      "request_name" = some (jstr rn) := by
    rw [lookupKey_removeKey_ne _ _ _ (by decide),
        lookupKey_prefixPathParams_ne _ _ _ (by decide), hrn]
  unfold sanitizeRequestName at hsan
  rw [h2] at hsan
  simp only [Except.ok.injEq] at hsan
  rw [hrec]
  show lookupKey (setKey cp3 "caller" (jstr "awc")) "request_name" = _
  rw [lookupKey_setKey_ne _ _ _ _ (by decide), ← hsan,
      lookupKey_setKey_self]

/-- C7: the identifier sanitization maps characters inside
`[a-zA-Z0-9._-]` to themselves and every other character to `_`
(`Char.ofNat 95`), and is idempotent; consequently `bob/x` and `bob_x`
sanitize alike and the user listing matches exactly the same records for
both, and job creation applies the same rule to the stored
`request_name`. -/
theorem c7_sanitization_rule (s : String) (store : Store) :
    (∀ c, allowedChar c = true → sanChar c = c) ∧
    (∀ c, allowedChar c = false → sanChar c = Char.ofNat 95) ∧
    (sanitizeId s).data = s.data.map sanChar ∧
    sanitizeId (sanitizeId s) = sanitizeId s ∧
    sanitizeId "bob/x" = sanitizeId "bob_x" ∧
    jobsForUser store "bob/x" = jobsForUser store "bob_x" ∧
    (∀ store0 job_id status cp t store1 rec rn,
      lookupKey cp "request_name" = some (jstr rn) →
      create_job_status store0 job_id status cp t = .ok (store1, rec) →
      lookupKey rec.call_params "request_name" = some (jstr (sanitizeId rn))) := by
  refine ⟨?_, ?_, rfl, sanitizeId_idem s, by decide, ?_, ?_⟩
  · intro c h; simp [sanChar, h]
  · intro c h; simp [sanChar, h]
  · unfold jobsForUser
    rw [show sanitizeId "bob/x" = sanitizeId "bob_x" by decide]
  · intro store0 job_id status cp t store1 rec rn hrn hok
    exact create_call_params_request_name store0 job_id status cp t store1 rec rn hrn hok

/-- The record `create-job` writes for a body whose `request_name` is
`bob/x`, with fresh id `j` and time `t`. -/
def c7WitnessRec : JobRecord :=
  { id := "j", api_instance := "web", status := createdStatus,
    job_submission_time := "t", last_updated := "t",
    call_params := [("request_name", jstr "bob_x"), ("image_path_prefix", jstr "j"),
                    ("caller", jstr "awc")] }

/-- Witness for C7: creating a job with `request_name = "bob/x"` stores
the sanitized name `bob_x`. -/
theorem c7_sanitization_rule_witness :
    lookupKey c7WitnessRec.call_params "request_name" =
      some (jstr (sanitizeId "bob/x")) :=
  (c7_sanitization_rule "a" []).2.2.2.2.2.2 [] "j" createdStatus
    [("request_name", jstr "bob/x")] "t" [c7WitnessRec] c7WitnessRec "bob/x"
    rfl rfl

/-- Shape accepted by the job-list UI: a plain string or a link object
with exactly the `text` and `url` fields. -/
def displayShapeB : JVal → Bool
  | jstr _ => true
  | jobj [("text", _), ("url", _)] => true
  | _ => false

/-- Whether a value is a Python `str` or `dict` (the shapes the final
safety net of the reshaping leaves untouched). -/
def isStrOrDict : JVal → Bool
  | jstr _ => true
  | jobj _ => true
  | _ => false

/-- C9: the message reshaping of the job listing is total — for every
stored message value it returns a plain string or a `{text, url}` link
object (never raising); a dict with a string `detections` value becomes the
`View Detections` link to it, a dict with no recognized key and no URL-like
string value becomes the plain string `Results available`, and any
non-string non-dict value is stringified. -/
theorem c9_message_reshaping_total (m : JVal) (kvs : List (String × JVal)) (s : String) :
    displayShapeB (reshapeMessage m) = true ∧
    (lookupKey kvs "detections" = some (jstr s) →
      reshapeMessage (jobj kvs) =
        jobj [("text", jstr "View Detections"), ("url", jstr s)]) ∧
    (containsKey kvs "detections" = false →
      containsKey kvs "output_file_urls" = false →
      scanUrl kvs = none →
      reshapeMessage (jobj kvs) = jstr "Results available") ∧
    (isStrOrDict m = false → reshapeMessage m = jstr (pyStr m)) := by
  refine ⟨?_, ?_, ?_, ?_⟩
  · cases m with
    | jobj kvs0 =>
      simp only [reshapeMessage]
      split
      · rfl
      · split
        · split
          · split
            · rfl
            · rfl
          · rfl
          · rfl
        · split
          · rfl
          · rfl
    | jnull => rfl
    | jbool b => rfl
    | jint n => rfl
    | jstr t => rfl
    | jarr xs => rfl
  · intro h
    simp only [reshapeMessage]
    rw [h]
  · intro h1 h2 h3
    have hdet : lookupKey kvs "detections" = none := by
      unfold containsKey at h1
      exact Option.not_isSome_iff_eq_none.mp (by simp [h1])
    simp only [reshapeMessage]
    rw [hdet]
    simp only [h2, Bool.false_eq_true, if_false, h3]
  · intro h
    cases m with
    | jstr t => exact absurd h (by simp [isStrOrDict])
    | jobj kvs0 => exact absurd h (by simp [isStrOrDict])
    | jnull => rfl
    | jbool b => rfl
    | jint n => rfl
    | jarr xs => rfl

/-- Witness for C9: a message dict holding a string `detections` URL is
reshaped into the `View Detections` link. -/
theorem c9_message_reshaping_total_witness :
    reshapeMessage (jobj [("detections", jstr "https://r.example/d.json")]) =
      jobj [("text", jstr "View Detections"),
            ("url", jstr "https://r.example/d.json")] :=
  (c9_message_reshaping_total jnull
    [("detections", jstr "https://r.example/d.json")]
    "https://r.example/d.json").2.1 rfl

theorem create_call_params_path (store : Store) (job_id : String)
    (status cp : PDict) (t : String) (store1 : Store) (rec : JobRecord)
    (hok : create_job_status store job_id status cp t = .ok (store1, rec)) :
    ∃ rest, lookupKey rec.call_params "image_path_prefix" =
      some (jstr (job_id ++ rest)) := by
  obtain ⟨-, -, cp3, hsan, hrec, -⟩ :=
    create_job_status_ok_shape store job_id status cp t store1 rec hok
  have hpre : ∃ rest,
      lookupKey (prefixPathParams job_id cp) "image_path_prefix" =
        some (jstr (job_id ++ rest)) := by
    unfold prefixPathParams
    split
    · rename_i orig horig
      refine ⟨"/" ++ pyStr orig, ?_⟩
      rw [lookupKey_setKey_self, ← String.append_assoc]
    · refine ⟨"", ?_⟩
      rw [lookupKey_setKey_self, String.append_empty]
  obtain ⟨rest, hl⟩ := hpre
  refine ⟨rest, ?_⟩
  rw [hrec]
  show lookupKey (setKey cp3 "caller" (jstr "awc")) "image_path_prefix" = _
  rw [lookupKey_setKey_ne _ _ _ _ (by decide),
      sanitizeRequestName_lookup_ne _ _ _ hsan (by decide),
      lookupKey_removeKey_ne _ _ _ (by decide), hl]

theorem update_params_main_run (store : Store) (jid : String) (body : PDict)
    (rec : JobRecord) (hne : jid ≠ "") (hbody : body ≠ [])
    (h : read_item store jid = some rec) :
    update_params_main store (some jid) (some body) =
      (⟨200, jobj [("success", jbool true),
                   ("message", jstr "Job parameters updated successfully")]⟩,
       replace_item store { rec with call_params := ensure_container_sas_url body }) := by
  have hbe : body.isEmpty = false := by
    cases body with
    | nil => exact absurd rfl hbody
    | cons a l => rfl
  simp only [update_params_main]
  rw [if_neg hne]
  simp only [hbe, Bool.false_eq_true, if_false, h]
  rfl

/-- C1 (amended): `create_job_status` does store a record whose
`call_params.image_path_prefix` begins with the fresh job id, but
`updateParameters` does not preserve the property: it stores the
replacement `image_path_prefix` verbatim (the sanitization it re-applies
only strips `input_container_sas` and stamps `caller`), so after an update
the stored prefix is exactly the client-supplied value. -/
theorem c1_prefix_established_not_preserved :
    (∀ store job_id status cp t store1 rec,
      create_job_status store job_id status cp t = .ok (store1, rec) →
      ∃ rest, lookupKey rec.call_params "image_path_prefix" =
        some (jstr (job_id ++ rest))) ∧
    (∀ store jid body rec v, jid ≠ "" → body ≠ [] →
      read_item store jid = some rec →
      lookupKey body "image_path_prefix" = some v →
      (read_item (update_params_main store (some jid) (some body)).2 jid).map
          (fun r => lookupKey r.call_params "image_path_prefix") =
        some (some v)) := by
  constructor
  · intro store job_id status cp t store1 rec hok
    exact create_call_params_path store job_id status cp t store1 rec hok
  · intro store jid body rec v hne hbody h hv
    rw [update_params_main_run store jid body rec hne hbody h]
    have hid : ({ rec with call_params := ensure_container_sas_url body } : JobRecord).id = jid :=
      read_item_id store jid rec h
    rw [read_item_replace store jid rec _ h hid]
    show some (lookupKey (ensure_container_sas_url body) "image_path_prefix") = _
    unfold ensure_container_sas_url
    rw [lookupKey_setKey_ne _ _ _ _ (by decide),
        lookupKey_removeKey_ne _ _ _ (by decide), hv]

/-- A stored job whose path prefix is correctly scoped under its id, used
as the starting state of the C1 counterexample and witness. -/
def c1Rec : JobRecord :=
  { id := "job1", api_instance := "web", status := createdStatus,
    job_submission_time := "t0", last_updated := "t0",
    call_params := [("num_images", jint 5),
                    ("image_path_prefix", jstr "job1/up"),
                    ("caller", jstr "awc")] }

/-- Counterexample for C1 as stated: updating the parameters of job
`job1` with a replacement set whose `image_path_prefix` is `otherplace`
succeeds (HTTP 200) and leaves the stored prefix `otherplace`, which does
not begin with the job id `job1`. -/
theorem c1_counterexample :
    (update_params_main [c1Rec] (some "job1")
        (some [("image_path_prefix", jstr "otherplace")])).1.status_code = 200 ∧
    (read_item (update_params_main [c1Rec] (some "job1")
        (some [("image_path_prefix", jstr "otherplace")])).2 "job1").map
        (fun r => lookupKey r.call_params "image_path_prefix") =
      some (some (jstr "otherplace")) ∧
    ¬ ∃ rest, "otherplace" = "job1" ++ rest := by
  refine ⟨rfl, rfl, ?_⟩
  rintro ⟨rest, hr⟩
  have h2 : "otherplace".data = "job1".data ++ rest.data := congrArg String.data hr
  have h3 : "otherplace".data.take ("job1".data.length) = "job1".data := by
    rw [h2]
    exact List.take_left _ _
  exact absurd h3 (by decide)

/-- The record `create-job` writes for a body whose only field is
`image_path_prefix = "up"`, with fresh id `j` and time `t`. -/
def c1WitnessCreatedRec : JobRecord :=
  { id := "j", api_instance := "web", status := createdStatus,
    job_submission_time := "t", last_updated := "t",
    call_params := [("image_path_prefix", jstr "j/up"), ("caller", jstr "awc")] }

/-- Witness for C1 (amended): creating a job with id `j` and a
client-supplied prefix `up` stores the job-scoped prefix `j/up`, and the
update of `c1Rec` stores the replacement prefix verbatim. -/
theorem c1_prefix_established_not_preserved_witness :
    (∃ rest, lookupKey c1WitnessCreatedRec.call_params "image_path_prefix" =
      some (jstr ("j" ++ rest))) ∧
    (read_item (update_params_main [c1Rec] (some "job1")
        (some [("image_path_prefix", jstr "newplace")])).2 "job1").map
        (fun r => lookupKey r.call_params "image_path_prefix") =
      some (some (jstr "newplace")) :=
  ⟨c1_prefix_established_not_preserved.1 [] "j" createdStatus
      [("image_path_prefix", jstr "up")] "t" [c1WitnessCreatedRec]
      c1WitnessCreatedRec rfl,
   c1_prefix_established_not_preserved.2 [c1Rec] "job1"
      [("image_path_prefix", jstr "newplace")] c1Rec (jstr "newplace")
      (by decide) (List.cons_ne_nil _ _) rfl rfl⟩

/-- C6 (amended): for every existing job and every nonempty replacement
parameter set `P`, `updateParameters(jobId, P)` succeeds and a subsequent
read returns `call_params` exactly equal to `P` with `input_container_sas`
removed and `caller` set to `awc` — a wholesale replacement with no merging
(every other key of `P` is stored unchanged and nothing of the previous
parameters survives).  An empty `P` is rejected by the falsy-body check
with HTTP 400 and no replacement (see the counterexample). -/
theorem c6_update_round_trip :
    (∀ store jid body rec, jid ≠ "" → body ≠ [] →
      read_item store jid = some rec →
      (update_params_main store (some jid) (some body)).1.status_code = 200 ∧
      (read_item (update_params_main store (some jid) (some body)).2 jid).map
          (fun r => r.call_params) = some (ensure_container_sas_url body)) ∧
    (∀ body : PDict,
      lookupKey (ensure_container_sas_url body) "input_container_sas" = none) ∧
    (∀ body : PDict,
      lookupKey (ensure_container_sas_url body) "caller" = some (jstr "awc")) ∧
    (∀ (body : PDict) k, k ≠ "input_container_sas" → k ≠ "caller" →
      lookupKey (ensure_container_sas_url body) k = lookupKey body k) := by
  refine ⟨?_, ?_, ?_, ?_⟩
  · intro store jid body rec hne hbody h
    rw [update_params_main_run store jid body rec hne hbody h]
    have hid : ({ rec with call_params := ensure_container_sas_url body } : JobRecord).id = jid :=
      read_item_id store jid rec h
    rw [read_item_replace store jid rec _ h hid]
    exact ⟨rfl, rfl⟩
  · intro body
    unfold ensure_container_sas_url
    rw [lookupKey_setKey_ne _ _ _ _ (by decide), lookupKey_removeKey_self]
  · intro body
    unfold ensure_container_sas_url
    rw [lookupKey_setKey_self]
  · intro body k h1 h2
    unfold ensure_container_sas_url
    rw [lookupKey_setKey_ne _ _ _ _ (Ne.symm h2),
        lookupKey_removeKey_ne _ _ _ (Ne.symm h1)]

/-- Counterexample for C6 as stated: the empty replacement set `{}` is
falsy, so the handler answers 400 and leaves the old parameters in place —
the read-back still holds `num_images = 5` although the claimed round-trip
result (`{}` minus the credential plus `caller`) has no such key. -/
theorem c6_counterexample :
    (update_params_main [c1Rec] (some "job1") (some [])).1.status_code = 400 ∧
    (read_item (update_params_main [c1Rec] (some "job1") (some [])).2 "job1").map
        (fun r => r.call_params) = some c1Rec.call_params ∧
    lookupKey c1Rec.call_params "num_images" = some (jint 5) ∧
    lookupKey (ensure_container_sas_url []) "num_images" = none :=
  ⟨rfl, rfl, rfl, rfl⟩

/-- Witness for C6 (amended): replacing the parameters of `job1` with
`{num_images: 7}` answers 200 and the read-back is exactly
`{num_images: 7, caller: awc}`. -/
theorem c6_update_round_trip_witness :
    (update_params_main [c1Rec] (some "job1")
        (some [("num_images", jint 7)])).1.status_code = 200 ∧
    (read_item (update_params_main [c1Rec] (some "job1")
        (some [("num_images", jint 7)])).2 "job1").map
        (fun r => r.call_params) =
      some (ensure_container_sas_url [("num_images", jint 7)]) :=
  c6_update_round_trip.1 [c1Rec] "job1" [("num_images", jint 7)] c1Rec
    (by decide) (List.cons_ne_nil _ _) rfl

/-- C2 (amended): for a complete-upload request naming an existing job
while the outbound call is enabled, a raised transport error still yields
HTTP 200 — but the two exception paths differ: a `ConnectionError` is
replaced by a mock success response, so the caller sees the generic
`Job submitted for processing` and the stored message carries no note,
whereas any other exception (e.g. a timeout) takes the generic handler,
whose response and stored message both carry the
`Note: Could not ...` connectivity note. -/
theorem c2_transport_error_masking (store : Store) (jid : String)
    (rec : JobRecord) (msg t1 t2 : String) (hne : jid ≠ "")
    (h : read_item store jid = some rec) :
    ((complete_upload_main store [("jobId", jstr jid)] true
        (.connError msg) t1 t2).1.status_code = 200 ∧
     bodyField (complete_upload_main store [("jobId", jstr jid)] true
        (.connError msg) t1 t2).1 "message" =
       some (jstr "Job submitted for processing") ∧
     (read_item (complete_upload_main store [("jobId", jstr jid)] true
        (.connError msg) t1 t2).2 jid).map
         (fun r => lookupKey r.status "message") =
       some (some (jstr "Request received from React web. Images were presumely uploaded.")) ∧
     pyInStr "Note" "Job submitted for processing" = false ∧
     pyInStr "Note" "Request received from React web. Images were presumely uploaded." = false) ∧
    ((complete_upload_main store [("jobId", jstr jid)] true
        (.otherError msg) t1 t2).1.status_code = 200 ∧
     bodyField (complete_upload_main store [("jobId", jstr jid)] true
        (.otherError msg) t1 t2).1 "message" =
       some (jstr "Job recorded successfully. Note: Could not connect to processing server, but your job has been registered.") ∧
     (read_item (complete_upload_main store [("jobId", jstr jid)] true
        (.otherError msg) t1 t2).2 jid).map
         (fun r => lookupKey r.status "message") =
       some (some (jstr "Request received from React web. Images were presumely uploaded. Note: Could not reach AI server.")) ∧
     pyInStr "Note: Could not" "Job recorded successfully. Note: Could not connect to processing server, but your job has been registered." = true ∧
     pyInStr "Note: Could not" "Request received from React web. Images were presumely uploaded. Note: Could not reach AI server." = true) := by
  have hj : lookupKey [("jobId", jstr jid)] "jobId" = some (jstr jid) := rfl
  have hread1 := read_item_withStatus store jid rec callingStatus t1 h
  have hid : rec.id = jid := read_item_id store jid rec h
  constructor
  · rw [complete_upload_main_run store _ jid rec true (.connError msg) t1 t2 hj hne h,
       show remoteResponse true (.connError msg) =
         some (200, mockConnErrorText, some mockConnErrorJson) from rfl,
       dispatch_resp_eq _ jid _ 200 _ _ t2 hread1, if_pos rfl]
    refine ⟨rfl, rfl, ?_, by decide, by decide⟩
    rw [withStatus_withStatus,
        read_item_replace _ jid (withStatus rec callingStatus t1)
          (withStatus rec submittedStatus t2) hread1 hid]
    rfl
  · rw [complete_upload_main_run store _ jid rec true (.otherError msg) t1 t2 hj hne h,
       show remoteResponse true (.otherError msg) = none from rfl,
       dispatch_none_eq _ jid _ t2 hread1]
    refine ⟨rfl, rfl, ?_, by decide, by decide⟩
    rw [withStatus_withStatus,
        read_item_replace _ jid (withStatus rec callingStatus t1)
          (withStatus rec noteStatus t2) hread1 hid]
    rfl

/-- Counterexample for C2 as stated: with the processor unreachable
(`requests` raises a `ConnectionError`), the response is HTTP 200 but its
message is the generic `Job submitted for processing` — it references no
connectivity failure — and the stored status message is the plain
success text with no note about the failure. -/
theorem c2_counterexample :
    (complete_upload_main [c1Rec] [("jobId", jstr "job1")] true
        (.connError "Connection refused") "t1" "t2").1.status_code = 200 ∧
    bodyField (complete_upload_main [c1Rec] [("jobId", jstr "job1")] true
        (.connError "Connection refused") "t1" "t2").1 "message" =
      some (jstr "Job submitted for processing") ∧
    pyInStr "Could not" "Job submitted for processing" = false ∧
    pyInStr "Note" "Job submitted for processing" = false ∧
    (read_item (complete_upload_main [c1Rec] [("jobId", jstr "job1")] true
        (.connError "Connection refused") "t1" "t2").2 "job1").map
        (fun r => lookupKey r.status "message") =
      some (some (jstr "Request received from React web. Images were presumely uploaded.")) ∧
    pyInStr "Note" "Request received from React web. Images were presumely uploaded." = false := by
  refine ⟨rfl, rfl, by decide, by decide, rfl, by decide⟩

/-- Witness for C2 (amended): on the concrete one-job store, both
transport-error paths answer 200, with the note present only on the
non-ConnectionError path. -/
theorem c2_transport_error_masking_witness :
    (complete_upload_main [c1Rec] [("jobId", jstr "job1")] true
        (.connError "refused") "t1" "t2").1.status_code = 200 ∧
    (complete_upload_main [c1Rec] [("jobId", jstr "job1")] true
        (.otherError "timeout") "t1" "t2").1.status_code = 200 ∧
    bodyField (complete_upload_main [c1Rec] [("jobId", jstr "job1")] true
        (.otherError "timeout") "t1" "t2").1 "message" =
      some (jstr "Job recorded successfully. Note: Could not connect to processing server, but your job has been registered.") :=
  ⟨(c2_transport_error_masking [c1Rec] "job1" c1Rec "refused" "t1" "t2"
      (by decide) rfl).1.1,
   (c2_transport_error_masking [c1Rec] "job1" c1Rec "timeout" "t1" "t2"
      (by decide) rfl).2.1,
   (c2_transport_error_masking [c1Rec] "job1" c1Rec "timeout" "t1" "t2"
      (by decide) rfl).2.2.1⟩

/-- C5 (amended): when the remote service answers with a status code other
than 200, the dispatch is treated as a failure: HTTP 500 with
`success = false` and an error detail, and the stored status becomes
`problem` with that detail in its message.  The detail is the remote
body's JSON `error` field when the body parses as a JSON object holding
one; when the parse (or the subsequent lookup) raises, the raw response
text if nonempty; in every other case — in particular a JSON object
without an `error` field — the generic
`AI server returned status code N`, not the raw text. -/
theorem c5_non200_dispatch_failure (store : Store) (jid : String)
    (rec : JobRecord) (code : Nat) (text : String) (jsonRes : Option JVal)
    (t1 t2 : String) (hne : jid ≠ "") (h : read_item store jid = some rec)
    (hc : code ≠ 200) :
    (complete_upload_main store [("jobId", jstr jid)] true
        (.resp code text jsonRes) t1 t2).1.status_code = 500 ∧
    bodyField (complete_upload_main store [("jobId", jstr jid)] true
        (.resp code text jsonRes) t1 t2).1 "success" = some (jbool false) ∧
    bodyField (complete_upload_main store [("jobId", jstr jid)] true
        (.resp code text jsonRes) t1 t2).1 "error" =
      some (extractErrorDetail code text jsonRes) ∧
    (read_item (complete_upload_main store [("jobId", jstr jid)] true
        (.resp code text jsonRes) t1 t2).2 jid).map
        (fun r => lookupKey r.status "request_status") =
      some (some (jstr "problem")) ∧
    (read_item (complete_upload_main store [("jobId", jstr jid)] true
        (.resp code text jsonRes) t1 t2).2 jid).map
        (fun r => lookupKey r.status "message") =
      some (some (jstr ("Error submitting to AI server: " ++
        pyStr (extractErrorDetail code text jsonRes)))) ∧
    (∀ kvs v, jsonRes = some (jobj kvs) → lookupKey kvs "error" = some v →
      extractErrorDetail code text jsonRes = v) ∧
    (∀ kvs, jsonRes = some (jobj kvs) → lookupKey kvs "error" = none →
      extractErrorDetail code text jsonRes =
        jstr ("AI server returned status code " ++ toString code)) ∧
    (jsonRes = none → text ≠ "" →
      extractErrorDetail code text jsonRes = jstr text) := by
  have hj : lookupKey [("jobId", jstr jid)] "jobId" = some (jstr jid) := rfl
  have hread1 := read_item_withStatus store jid rec callingStatus t1 h
  have hid : rec.id = jid := read_item_id store jid rec h
  rw [complete_upload_main_run store _ jid rec true (.resp code text jsonRes)
        t1 t2 hj hne h,
     show remoteResponse true (.resp code text jsonRes) =
       some (code, text, jsonRes) from rfl,
     dispatch_resp_eq _ jid _ code text jsonRes t2 hread1, if_neg hc]
  refine ⟨rfl, rfl, rfl, ?_, ?_, ?_, ?_, ?_⟩
  · rw [withStatus_withStatus,
        read_item_replace _ jid (withStatus rec callingStatus t1)
          (withStatus rec
            (problemStatus (pyStr (extractErrorDetail code text jsonRes))) t2)
          hread1 hid]
    rfl
  · rw [withStatus_withStatus,
        read_item_replace _ jid (withStatus rec callingStatus t1)
          (withStatus rec
            (problemStatus (pyStr (extractErrorDetail code text jsonRes))) t2)
          hread1 hid]
    rfl
  · intro kvs v hjson hl
    subst hjson
    simp [extractErrorDetail, hl]
  · intro kvs hjson hl
    subst hjson
    simp [extractErrorDetail, hl]
  · intro hjson ht
    subst hjson
    simp [extractErrorDetail, ht]

/-- The remote body text of the C5 counterexample, a JSON object with no
`error` field. -/
def c5BodyText : String := "\x7b\"ok\": false\x7d"

/-- Counterexample for C5 as stated: the remote service answers 500 with a
body that parses as JSON but has no `error` field; the claim demands the
raw response text as the error detail, but the handler keeps the generic
`AI server returned status code 500` message. -/
theorem c5_counterexample :
    (complete_upload_main [c1Rec] [("jobId", jstr "job1")] true
        (.resp 500 c5BodyText (some (jobj [("ok", jbool false)]))) "t1" "t2").1.status_code = 500 ∧
    bodyField (complete_upload_main [c1Rec] [("jobId", jstr "job1")] true
        (.resp 500 c5BodyText (some (jobj [("ok", jbool false)]))) "t1" "t2").1 "error" =
      some (jstr "AI server returned status code 500") ∧
    c5BodyText ≠ "" ∧
    "AI server returned status code 500" ≠ c5BodyText :=
  ⟨rfl, rfl, by decide, by decide⟩

/-- Witness for C5 (amended): a 500 remote answer whose JSON body carries
`error = "boom"` yields HTTP 500 with that detail and a `problem` status. -/
theorem c5_non200_dispatch_failure_witness :
    (complete_upload_main [c1Rec] [("jobId", jstr "job1")] true
        (.resp 500 "irrelevant" (some (jobj [("error", jstr "boom")]))) "t1" "t2").1.status_code = 500 ∧
    bodyField (complete_upload_main [c1Rec] [("jobId", jstr "job1")] true
        (.resp 500 "irrelevant" (some (jobj [("error", jstr "boom")]))) "t1" "t2").1 "error" =
      some (extractErrorDetail 500 "irrelevant" (some (jobj [("error", jstr "boom")]))) ∧
    extractErrorDetail 500 "irrelevant" (some (jobj [("error", jstr "boom")])) = jstr "boom" :=
  ⟨(c5_non200_dispatch_failure [c1Rec] "job1" c1Rec 500 "irrelevant"
      (some (jobj [("error", jstr "boom")])) "t1" "t2" (by decide) rfl
      (by decide)).1,
   (c5_non200_dispatch_failure [c1Rec] "job1" c1Rec 500 "irrelevant"
      (some (jobj [("error", jstr "boom")])) "t1" "t2" (by decide) rfl
      (by decide)).2.2.1,
   (c5_non200_dispatch_failure [c1Rec] "job1" c1Rec 500 "irrelevant"
      (some (jobj [("error", jstr "boom")])) "t1" "t2" (by decide) rfl
      (by decide)).2.2.2.2.2.1 [("error", jstr "boom")] (jstr "boom") rfl rfl⟩

theorem sanitizeRequestName_none (cp : PDict)
    (h : lookupKey cp "request_name" = none) :
    sanitizeRequestName cp = .ok cp := by
  unfold sanitizeRequestName
  rw [h]

theorem sanitizeRequestName_str (cp : PDict) (rn : String)
    (h : lookupKey cp "request_name" = some (jstr rn)) :
    sanitizeRequestName cp = .ok (setKey cp "request_name" (jstr (sanitizeId rn))) := by
  unfold sanitizeRequestName
  rw [h]

/-- The document `create_job_status` assembles from the sanitized
parameters `cp3`, the fresh id and the current time. -/
def createItemOf (job_id : String) (cp3 : PDict) (t : String) : JobRecord :=
  { id := job_id, api_instance := "web", status := createdStatus,
    job_submission_time := t, last_updated := t,
    call_params := setKey cp3 "caller" (jstr "awc") }

theorem create_job_status_ok_of (store : Store) (job_id : String) (cp : PDict)
    (t : String) (cp3 : PDict)
    (hfresh : read_item store job_id = none)
    (hsan : sanitizeRequestName
      (removeKey (prefixPathParams job_id cp) "input_container_sas") = .ok cp3) :
    create_job_status store job_id createdStatus cp t =
      .ok (store ++ [createItemOf job_id cp3 t], createItemOf job_id cp3 t) := by
  unfold create_job_status
  rw [if_neg (by decide), if_neg (by decide)]
  dsimp only
  rw [hsan]
  unfold create_item
  dsimp only
  rw [hfresh]
  rfl

/-- C8 (amended): `create-job` answers 400 and stores nothing when
`num_images` is absent or not a Python `int`; for a body holding an
integer `num_images` whose `request_name`, when present, is a string, it
stores a fresh record with `request_status = created`, with
`input_container_sas` stripped and `caller` stamped `awc`, and answers 200
with the fresh job id.  (A present non-string `request_name` instead makes
`re.sub` raise, answering 500 with no record — see the counterexample.) -/
theorem c8_create_job_validation (reqBody : PDict) (job_id t : String)
    (store : Store) :
    (¬ (containsKey reqBody "num_images" = true ∧
        isPyInt (getD reqBody "num_images" jnull) = true) →
      (create_job_main reqBody job_id t store).1 =
        errorResp 400 "num_images is required and must be an integer" ∧
      (create_job_main reqBody job_id t store).2 = store) ∧
    (∀ rn, containsKey reqBody "num_images" = true →
      isPyInt (getD reqBody "num_images" jnull) = true →
      (lookupKey reqBody "request_name" = none ∨
        lookupKey reqBody "request_name" = some (jstr rn)) →
      read_item store job_id = none →
      (create_job_main reqBody job_id t store).1.status_code = 200 ∧
      bodyField (create_job_main reqBody job_id t store).1 "jobId" =
        some (jstr job_id) ∧
      ∃ rec, read_item (create_job_main reqBody job_id t store).2 job_id = some rec ∧
        lookupKey rec.status "request_status" = some (jstr "created") ∧
        lookupKey rec.call_params "input_container_sas" = none ∧
        lookupKey rec.call_params "caller" = some (jstr "awc")) := by
  constructor
  · intro hbad
    unfold create_job_main
    rw [if_pos hbad]
    exact ⟨rfl, rfl⟩
  · intro rn h1 h2 hrn hfresh
    have hsan : ∃ cp3, sanitizeRequestName
        (removeKey (prefixPathParams job_id reqBody) "input_container_sas") =
          .ok cp3 ∧ lookupKey cp3 "input_container_sas" = none := by
      have hlift : lookupKey (removeKey (prefixPathParams job_id reqBody)
          "input_container_sas") "request_name" = lookupKey reqBody "request_name" := by
        rw [lookupKey_removeKey_ne _ _ _ (by decide),
            lookupKey_prefixPathParams_ne _ _ _ (by decide)]
      rcases hrn with hrn | hrn
      · refine ⟨_, sanitizeRequestName_none _ (hlift.trans hrn), ?_⟩
        exact lookupKey_removeKey_self _ _
      · refine ⟨_, sanitizeRequestName_str _ rn (hlift.trans hrn), ?_⟩
        rw [lookupKey_setKey_ne _ _ _ _ (by decide)]
        exact lookupKey_removeKey_self _ _
    obtain ⟨cp3, hsan, hsas⟩ := hsan
    have hok := create_job_status_ok_of store job_id reqBody t cp3 hfresh hsan
    unfold create_job_main
    rw [if_neg (by simp [h1, h2]), hok]
    refine ⟨rfl, rfl, createItemOf job_id cp3 t, ?_, rfl, ?_, ?_⟩
    · rw [read_item_append_none store job_id _ hfresh]
      rw [if_pos (show (createItemOf job_id cp3 t).id = job_id from rfl)]
    · show lookupKey (setKey cp3 "caller" (jstr "awc")) "input_container_sas" = none
      rw [lookupKey_setKey_ne _ _ _ _ (by decide), hsas]
    · show lookupKey (setKey cp3 "caller" (jstr "awc")) "caller" = some (jstr "awc")
      rw [lookupKey_setKey_self]

/-- Counterexample for C8 as stated: the body `{num_images: 5,
request_name: 7}` contains an integer `num_images`, yet no record is
written and the answer is the 500 envelope — the non-string
`request_name` makes `re.sub` raise inside `create_job_status`. -/
theorem c8_counterexample :
    containsKey [("num_images", jint 5), ("request_name", jint 7)] "num_images" = true ∧
    isPyInt (getD [("num_images", jint 5), ("request_name", jint 7)]
      "num_images" jnull) = true ∧
    (create_job_main [("num_images", jint 5), ("request_name", jint 7)]
      "j" "t" []).1.status_code = 500 ∧
    (create_job_main [("num_images", jint 5), ("request_name", jint 7)]
      "j" "t" []).2 = [] :=
  ⟨rfl, rfl, rfl, rfl⟩

/-- Witness for C8 (amended): the body `{num_images: 5}` creates a record
with status `created`, no credential field and the `awc` caller tag, and
the fresh id is returned. -/
theorem c8_create_job_validation_witness :
    (create_job_main [("num_images", jint 5)] "j" "t" []).1.status_code = 200 ∧
    bodyField (create_job_main [("num_images", jint 5)] "j" "t" []).1 "jobId" =
      some (jstr "j") ∧
    ∃ rec, read_item (create_job_main [("num_images", jint 5)] "j" "t" []).2 "j" =
        some rec ∧
      lookupKey rec.status "request_status" = some (jstr "created") ∧
      lookupKey rec.call_params "input_container_sas" = none ∧
      lookupKey rec.call_params "caller" = some (jstr "awc") :=
  (c8_create_job_validation [("num_images", jint 5)] "j" "t" []).2 "x"
    rfl rfl (Or.inl rfl) rfl

/-- Blob lookup by path. -/
def lookupBlob : BlobStore → String → Option (List Nat)
  | [], _ => none
  | (q, bs) :: rest, p => if q = p then some bs else lookupBlob rest p

theorem lookupBlob_upsert_self (blobs : BlobStore) (p : String)
    (content : List Nat) :
    lookupBlob (upsertBlob blobs p content) p = some content := by
  induction blobs with
  | nil => simp [upsertBlob, lookupBlob]
  | cons qb rest ih =>
    obtain ⟨q, bs⟩ := qb
    by_cases hq : q = p
    · simp [upsertBlob, lookupBlob, hq]
    · simp [upsertBlob, lookupBlob, hq, ih]

/-- C10 (amended): `upload-file` answers 400 and stores nothing when
`jobId`, `fileName` or `fileContent` is missing (or falsy); for a string
`fileContent` it base64-decodes `uploadSegment content` — the element at
index 1 of the Python split on `;base64,` when that marker occurs (the
text up to the NEXT occurrence of the marker, not the whole remainder),
else the whole content; a failed decode answers 400 with an `error` field
and writes no blob; a successful decode stores the bytes at
`jobId + "/" + filePath` (with `filePath` defaulting to `fileName`) and
returns that path as `blobPath`. -/
theorem c10_upload_file_handling (reqBody : PDict) (blobs : BlobStore) :
    (¬ (truthy (getD reqBody "jobId" jnull) = true ∧
        truthy (getD reqBody "fileName" jnull) = true ∧
        truthy (getD reqBody "fileContent" jnull) = true) →
      (upload_file_main reqBody blobs).1 =
        errorResp 400 "Missing required fields: jobId, fileName, fileContent" ∧
      (upload_file_main reqBody blobs).2 = blobs) ∧
    (∀ content,
      truthy (getD reqBody "jobId" jnull) = true →
      truthy (getD reqBody "fileName" jnull) = true →
      getD reqBody "fileContent" jnull = jstr content →
      truthy (jstr content) = true →
      (∀ e, pyB64decode (uploadSegment content) = .error e →
        (upload_file_main reqBody blobs).1 =
          errorResp 400 ("Invalid base64 content: " ++ e) ∧
        (upload_file_main reqBody blobs).2 = blobs) ∧
      (∀ bytes, pyB64decode (uploadSegment content) = .ok bytes →
        (upload_file_main reqBody blobs).1.status_code = 200 ∧
        bodyField (upload_file_main reqBody blobs).1 "blobPath" =
          some (jstr (uploadBlobPath reqBody)) ∧
        lookupBlob (upload_file_main reqBody blobs).2 (uploadBlobPath reqBody) =
          some bytes)) ∧
    (containsKey reqBody "filePath" = false →
      uploadFilePathVal reqBody = getD reqBody "fileName" jnull) ∧
    (∀ v, lookupKey reqBody "filePath" = some v →
      uploadFilePathVal reqBody = v) := by
  refine ⟨?_, ?_, ?_, ?_⟩
  · intro hbad
    unfold upload_file_main
    rw [if_pos hbad]
    exact ⟨rfl, rfl⟩
  · intro content h1 h2 hcontent htr
    have hcond : ¬ ¬ (truthy (getD reqBody "jobId" jnull) = true ∧
        truthy (getD reqBody "fileName" jnull) = true ∧
        truthy (getD reqBody "fileContent" jnull) = true) :=
      not_not_intro ⟨h1, h2, by rw [hcontent]; exact htr⟩
    constructor
    · intro e he
      unfold upload_file_main
      rw [if_neg hcond]
      dsimp only
      rw [hcontent]
      dsimp only
      rw [he]
      exact ⟨rfl, rfl⟩
    · intro bytes hb
      unfold upload_file_main
      rw [if_neg hcond]
      dsimp only
      rw [hcontent]
      dsimp only
      rw [hb]
      exact ⟨rfl, rfl, lookupBlob_upsert_self blobs _ bytes⟩
  · intro h
    unfold uploadFilePathVal
    have : lookupKey reqBody "filePath" = none :=
      Option.not_isSome_iff_eq_none.mp (by simp [containsKey] at h; simp [h])
    rw [this]
  · intro v hv
    unfold uploadFilePathVal
    rw [hv]

/-- Counterexample for C10 as stated: for
`fileContent = "data:;base64,QUJD;base64,AAA"` the portion after (the
first occurrence of) `;base64,` is `QUJD;base64,AAA`, whose decode
raises — the claim then demands a 400 error and no blob — yet the handler
decodes only the split element `QUJD`, answers 200 and stores the blob. -/
theorem c10_counterexample :
    "data:" ++ ";base64," ++ "QUJD;base64,AAA" = "data:;base64,QUJD;base64,AAA" ∧
    (pyB64decode "QUJD;base64,AAA").isOk = false ∧
    (upload_file_main [("jobId", jstr "j1"), ("fileName", jstr "a.png"),
        ("fileContent", jstr "data:;base64,QUJD;base64,AAA")] []).1.status_code = 200 ∧
    bodyField (upload_file_main [("jobId", jstr "j1"), ("fileName", jstr "a.png"),
        ("fileContent", jstr "data:;base64,QUJD;base64,AAA")] []).1 "blobPath" =
      some (jstr "j1/a.png") ∧
    (upload_file_main [("jobId", jstr "j1"), ("fileName", jstr "a.png"),
        ("fileContent", jstr "data:;base64,QUJD;base64,AAA")] []).2 =
      [("j1/a.png", [65, 66, 67])] :=
  ⟨rfl, by decide, rfl, rfl, rfl⟩

/-- Witness for C10 (amended): a missing `fileContent` answers 400 with
nothing stored, and a well-formed upload of `QUJD` (bytes `ABC`) lands at
`j/f.png`. -/
theorem c10_upload_file_handling_witness :
    ((upload_file_main [("jobId", jstr "j")] []).1 =
      errorResp 400 "Missing required fields: jobId, fileName, fileContent" ∧
     (upload_file_main [("jobId", jstr "j")] []).2 = []) ∧
    ((upload_file_main [("jobId", jstr "j"), ("fileName", jstr "f.png"),
        ("fileContent", jstr "QUJD")] []).1.status_code = 200 ∧
     bodyField (upload_file_main [("jobId", jstr "j"), ("fileName", jstr "f.png"),
        ("fileContent", jstr "QUJD")] []).1 "blobPath" =
       some (jstr (uploadBlobPath [("jobId", jstr "j"), ("fileName", jstr "f.png"),
        ("fileContent", jstr "QUJD")])) ∧
     lookupBlob (upload_file_main [("jobId", jstr "j"), ("fileName", jstr "f.png"),
        ("fileContent", jstr "QUJD")] []).2
       (uploadBlobPath [("jobId", jstr "j"), ("fileName", jstr "f.png"),
        ("fileContent", jstr "QUJD")]) = some [65, 66, 67]) :=
  ⟨(c10_upload_file_handling [("jobId", jstr "j")] []).1 (by decide),
   ((c10_upload_file_handling [("jobId", jstr "j"), ("fileName", jstr "f.png"),
       ("fileContent", jstr "QUJD")] []).2.1 "QUJD" rfl rfl rfl (by decide)).2
     [65, 66, 67] rfl⟩
